import Mathlib

/-!
Verification development for the friend repository's Geo-Aggregation &
Ranking Engine (`src/backend/app/services/recommendation_service.py`) and
the External-Place Entity Resolver & Incremental Crawler
(`src/worker/crawlers/naver_place.py`).

Python floats are modelled as real numbers `ℝ` (for code whose behaviour
under scrutiny involves transcendental functions) or as rationals `ℚ`
(where all arithmetic is field arithmetic and executability matters).
Python strings are Lean `String`s, `None` is `Option.none`, exceptions are
`Except`/explicit error values, and `await`-ed external calls are driven
by explicit environment records so that the call/effect order of the
source is preserved as data.
-/

/-- Membership of a needle character list inside a haystack character
list, mirroring Python's `in` operator on strings. -/
def charsHasSub (needle : List Char) : List Char → Bool
  | [] => needle.isEmpty
  | c :: rest => needle.isPrefixOf (c :: rest) || charsHasSub needle rest

/-- Python `needle in haystack` on strings. -/
def strHasSub (haystack needle : String) : Bool :=
  charsHasSub needle.data haystack.data

/-- Python `"".join(s.split())`: all whitespace removed. -/
def removeWhitespace (s : String) : String :=
  String.mk (s.data.filter fun c => !c.isWhitespace)

/-- Python `str.strip()`: leading and trailing whitespace removed
(structural model of trimming). -/
def pyStrip (s : String) : String :=
  String.mk (((s.data.dropWhile Char.isWhitespace).reverse.dropWhile
    Char.isWhitespace).reverse)

/-- Python `str.lower()` on the character content. -/
def pyLower (s : String) : String := String.mk (s.data.map Char.toLower)

/-- Python `str.endswith(suffix)`. -/
def pyEndsWith (s suffix : String) : Bool :=
  suffix.data.reverse.isPrefixOf s.data.reverse

/-- Accumulator loop for Python `str.split()` (split on whitespace
runs, dropping empty pieces); the current word is carried reversed. -/
def pySplitWhitespaceAux : List Char → List Char → List String
  | [], cur => if cur.isEmpty then [] else [String.mk cur.reverse]
  | c :: rest, cur =>
    if c.isWhitespace then
      if cur.isEmpty then pySplitWhitespaceAux rest []
      else String.mk cur.reverse :: pySplitWhitespaceAux rest []
    else pySplitWhitespaceAux rest (c :: cur)

/-- Python `str.split()` with no separator argument. -/
def pySplitWhitespace (s : String) : List String := pySplitWhitespaceAux s.data []

/-- `recommendation_service._normalize_keyword`:
`"".join(keyword.split()).lower()`. -/
def normalizeKeyword (keyword : String) : String :=
  pyLower (removeWhitespace keyword)

/-- `PREDEFINED_PLAY_KEYWORDS_BY_CATEGORY` from
`recommendation_service.py`. -/
def predefinedPlayKeywordsByCategory : List (String × List String) :=
  [("액티브 & 스포츠",
    ["볼링장", "당구장", "포켓볼", "스크린야구", "스크린골프", "스크린테니스",
     "실내클라이밍", "양궁카페", "사격카페", "롤러스케이트장", "아이스링크",
     "탁구장", "풋살장"]),
   ("게임 & 소셜",
    ["방탈출", "보드게임카페", "코인노래방", "노래연습장", "PC방", "오락실",
     "가챠샵", "홀덤펍", "마작카페", "레이싱카페"]),
   ("창작 & 클래스",
    ["공방", "향수공방", "도자기공방", "가죽공방", "베이킹클래스",
     "원데이클래스", "반지공방", "목공소"]),
   ("힐링 & 테마 카페",
    ["만화카페", "룸카페", "고양이카페", "강아지카페", "라쿤카페",
     "파충류카페", "드로잉카페", "심리상담카페", "족욕카페", "북카페", "LP바"]),
   ("문화 & 예술",
    ["영화관", "미술관", "전시회", "박물관", "소극장", "독립영화관", "팝업스토어"]),
   ("기록 & 쇼핑",
    ["인생네컷", "셀프사진관", "포토이즘", "포토그레이", "소품샵", "편집샵",
     "유니크샵", "플리마켓"])]

/-- `PREDEFINED_PLAY_KEYWORDS`: the flattened keyword list, in category
then declaration order. -/
def predefinedPlayKeywords : List String :=
  (predefinedPlayKeywordsByCategory.map Prod.snd).flatten

/-- `KEYWORD_TO_PLAY_CATEGORY` lookup: the category whose keyword list
contains the (already normalized) keyword.  Keys are unique in the
source dict, so first-match lookup is faithful. -/
def keywordToPlayCategory (normalized : String) : Option String :=
  (predefinedPlayKeywordsByCategory.find? fun p =>
    p.2.any fun kw => normalizeKeyword kw == normalized).map Prod.fst

/-- `FIXED_STATION_LIMIT` in `recommendation_service.py`. -/
def fixedStationLimit : ℤ := 1

/-- `FIXED_PAGES` in `recommendation_service.py`. -/
def fixedPages : ℤ := 1

/-- `SUPPORTED_WEATHER_KEYS`. -/
def supportedWeatherKeys : List String :=
  ["맑음", "구름많음", "흐림", "비", "눈", "default"]

/-- `RAINY_WEATHER_KEYS`. -/
def rainyWeatherKeys : List String := ["비", "눈"]

/-- `RecommendationService._normalize_weather_key`. -/
def normalizeWeatherKey (rawWeatherKey : Option String) : Option String :=
  match rawWeatherKey with
  | none => none
  | some raw =>
    let normalized := pyStrip raw
    if normalized = "" then none
    else if ["빗방울", "비/눈", "빗방울눈날림", "소나기"].contains normalized then some "비"
    else if ["눈날림"].contains normalized then some "눈"
    else if !(supportedWeatherKeys.contains normalized) then some "default"
    else some normalized

/-- `RecommendationService._map_keyword_to_play_category`. -/
def mapKeywordToPlayCategory (sourceKeyword : Option String)
    (fallbackCategory : Option String) : String :=
  let mapped :=
    match sourceKeyword with
    | some kw =>
      if kw ≠ "" then keywordToPlayCategory (normalizeKeyword kw) else none
    | none => none
  match mapped with
  | some category => category
  | none =>
    let fallback := pyStrip (fallbackCategory.getD "")
    if fallback = "" then "기타" else fallback

/-- `RecommendationService._clamp_unit`. -/
noncomputable def clampUnit (value : ℝ) : ℝ :=
  if value < 0 then 0 else if value > 1 then 1 else value

/-- `EARTH_RADIUS_KM`. -/
noncomputable def earthRadiusKm : ℝ := 6371.0

/-- `DISTANCE_DECAY_KM`. -/
noncomputable def distanceDecayKm : ℝ := 2.5

/-- `DISTANCE_FAIRNESS_DECAY_KM`. -/
noncomputable def distanceFairnessDecayKm : ℝ := 1.0

/-- `RATING_BASELINE`. -/
noncomputable def ratingBaseline : ℝ := 3.5

/-- `RATING_SPAN`. -/
noncomputable def ratingSpan : ℝ := 1.5

/-- `RATING_CONFIDENCE_MAX_COUNT`. -/
def ratingConfidenceMaxCount : ℤ := 2000

/-- `BAYESIAN_PRIOR_MEAN`. -/
noncomputable def bayesianPriorMean : ℝ := 4.2

/-- `BAYESIAN_PRIOR_WEIGHT`. -/
noncomputable def bayesianPriorWeight : ℝ := 80.0

/-- `REVIEW_COUNT_SCORE_EXPONENT`. -/
noncomputable def reviewCountScoreExponent : ℝ := 1.35

/-- `NEUTRAL_COMPONENT_SCORE`. -/
noncomputable def neutralComponentScore : ℝ := 0.5

/-- The ranking weight vector `{distance, rating, weather, confidence}`. -/
structure RankingWeights where
  distance : ℝ
  rating : ℝ
  weather : ℝ
  confidence : ℝ

/-- `DEFAULT_RANKING_WEIGHTS`. -/
noncomputable def defaultRankingWeights : RankingWeights :=
  { distance := 0.30, rating := 0.05, weather := 0.20, confidence := 0.45 }

/-- `RAINY_RANKING_WEIGHTS`. -/
noncomputable def rainyRankingWeights : RankingWeights :=
  { distance := 0.25, rating := 0.05, weather := 0.25, confidence := 0.45 }

/-- `RecommendationService._resolve_ranking_weights`. -/
noncomputable def resolveRankingWeights (weatherKey : Option String) : RankingWeights :=
  match weatherKey with
  | some key => if rainyWeatherKeys.contains key then rainyRankingWeights else defaultRankingWeights
  | none => defaultRankingWeights

/-- One row of `WEATHER_CATEGORY_SUITABILITY`; the final argument is the
value of the row's `"기타"` entry, which `get` falls back to. -/
noncomputable def weatherMatrixRow (category : String)
    (active game culture healing craft shopping etc : ℝ) : ℝ :=
  if category = "액티브 & 스포츠" then active
  else if category = "게임 & 소셜" then game
  else if category = "문화 & 예술" then culture
  else if category = "힐링 & 테마 카페" then healing
  else if category = "창작 & 클래스" then craft
  else if category = "기록 & 쇼핑" then shopping
  else etc

/-- `WEATHER_CATEGORY_SUITABILITY` with the source's two-level
`dict.get` fallback (unknown weather key falls to the `"default"` row,
unknown category falls to the row's `"기타"` value). -/
noncomputable def weatherCategorySuitability (weatherKey category : String) : ℝ :=
  if weatherKey = "맑음" then weatherMatrixRow category 0.78 0.76 0.84 0.86 0.82 0.90 0.75
  else if weatherKey = "구름많음" then weatherMatrixRow category 0.82 0.82 0.85 0.87 0.84 0.84 0.76
  else if weatherKey = "흐림" then weatherMatrixRow category 0.86 0.86 0.88 0.88 0.85 0.78 0.75
  else if weatherKey = "비" then weatherMatrixRow category 0.95 0.95 0.90 0.92 0.88 0.70 0.62
  else if weatherKey = "눈" then weatherMatrixRow category 0.95 0.95 0.91 0.92 0.88 0.66 0.60
  else neutralComponentScore

/-- The category names present in `WEATHER_CATEGORY_SUITABILITY["default"]`. -/
def weatherDefaultCategories : List String :=
  ["액티브 & 스포츠", "게임 & 소셜", "문화 & 예술", "힐링 & 테마 카페",
   "창작 & 클래스", "기록 & 쇼핑", "기타"]

/-- `RecommendationService._normalize_activity_category_for_weather`. -/
def normalizeActivityCategoryForWeather (activityCategory : String) : String :=
  if weatherDefaultCategories.contains activityCategory then activityCategory
  else
    let compact := pyLower (removeWhitespace activityCategory)
    if ["볼링", "당구", "클라이밍", "스크린", "풋살", "탁구", "양궁", "사격",
        "스케이트", "아이스링크", "스포츠"].any (strHasSub compact) then "액티브 & 스포츠"
    else if ["방탈출", "보드게임", "노래", "코인", "pc", "오락", "가챠", "홀덤",
        "마작", "게임"].any (strHasSub compact) then "게임 & 소셜"
    else if ["영화", "미술", "박물", "전시", "소극장", "극장", "아트"].any
        (strHasSub compact) then "문화 & 예술"
    else if ["공방", "클래스", "체험", "베이킹", "향수", "도자기", "가죽", "목공",
        "반지"].any (strHasSub compact) then "창작 & 클래스"
    else if ["인생네컷", "셀프사진", "포토", "소품", "편집샵", "쇼핑",
        "플리마켓"].any (strHasSub compact) then "기록 & 쇼핑"
    else if strHasSub compact "카페" then "힐링 & 테마 카페"
    else "기타"

/-- `RecommendationService._calculate_weather_suitability_score`. -/
noncomputable def calculateWeatherSuitabilityScore (weatherKey : Option String)
    (activityCategory : String) : ℝ :=
  match weatherKey with
  | none => neutralComponentScore
  | some key =>
    clampUnit (weatherCategorySuitability key (normalizeActivityCategoryForWeather activityCategory))

/-- `schemas/recommendation.MidpointParticipant` (`{lat, lng}`). -/
structure MidpointParticipant where
  lat : ℝ
  lng : ℝ

/-- `schemas/recommendation.Midpoint`. -/
structure Midpoint where
  lat : ℝ
  lng : ℝ

/-- `schemas/recommendation.MidpointHotplaceRequest`.  The schema also
accepts `station_limit` and `pages`, which the service overrides with
the fixed policy values; both are carried here as accepted input. -/
structure MidpointHotplaceRequest where
  participants : List MidpointParticipant
  station_radius : ℤ
  station_limit : ℤ
  place_radius : ℤ
  keywords : List String
  size : ℤ
  pages : ℤ
  weather_key : Option String

/-- `schemas/recommendation.MidpointStation`. -/
structure MidpointStation where
  kakao_place_id : String
  station_name : String
  original_name : String
  category_name : Option String
  address_name : Option String
  road_address_name : Option String
  place_url : Option String
  x : ℝ
  y : ℝ
  distance : Option ℤ

/-- `schemas/recommendation.MidpointHotplace` with all enrichment and
ranking fields. -/
structure MidpointHotplace where
  kakao_place_id : String
  place_name : String
  category_name : Option String
  address_name : Option String
  road_address_name : Option String
  place_url : Option String
  x : ℝ
  y : ℝ
  distance : Option ℤ
  source_station : String
  source_keyword : String
  activity_intro : Option String
  representative_image_url : Option String
  photo_urls : List String
  naver_rating : Option ℝ
  naver_rating_count : Option ℤ
  photo_collection_status : String
  photo_collection_reason : Option String
  ranking_score : Option ℝ
  ranking_reasons : List String

/-- Python `math.radians`. -/
noncomputable def pyRadians (deg : ℝ) : ℝ := deg * (Real.pi / 180)

/-- Python `math.atan2` on real arguments (the branches of the C
`atan2` convention, including `atan2(0, 0) = 0`). -/
noncomputable def pyAtan2 (y x : ℝ) : ℝ :=
  if 0 < x then Real.arctan (y / x)
  else if x < 0 then
    if 0 ≤ y then Real.arctan (y / x) + Real.pi else Real.arctan (y / x) - Real.pi
  else if 0 < y then Real.pi / 2
  else if y < 0 then -(Real.pi / 2)
  else 0

/-- `RecommendationService._haversine_distance_km`, including the
`max(0.0, min(1.0, h))` clamp before the arc computation. -/
noncomputable def haversineDistanceKm (fromLat fromLng toLat toLng : ℝ) : ℝ :=
  let latDelta := pyRadians (toLat - fromLat)
  let lngDelta := pyRadians (toLng - fromLng)
  let fromLatRad := pyRadians fromLat
  let toLatRad := pyRadians toLat
  let haversine := Real.sin (latDelta / 2) ^ 2 +
    Real.cos fromLatRad * Real.cos toLatRad * Real.sin (lngDelta / 2) ^ 2
  let clamped := max 0 (min 1 haversine)
  let arc := 2 * pyAtan2 (Real.sqrt clamped) (Real.sqrt (1 - clamped))
  earthRadiusKm * arc

/-- The distance-fairness shape applied by `_calculate_distance_score`:
`clamp(exp(-mean/D_decay) * exp(-stddev/D_fair))`. -/
noncomputable def distanceFairnessScore (mean stddev : ℝ) : ℝ :=
  clampUnit (Real.exp (-mean / distanceDecayKm) * Real.exp (-stddev / distanceFairnessDecayKm))

/-- The haversine distances from the candidate to every participant
(`participant_distances` in `_calculate_distance_score`). -/
noncomputable def participantDistancesKm (h : MidpointHotplace)
    (request : MidpointHotplaceRequest) : List ℝ :=
  request.participants.map fun p => haversineDistanceKm p.lat p.lng h.y h.x

/-- `avg_distance` in `_calculate_distance_score`. -/
noncomputable def meanDistanceKm (h : MidpointHotplace)
    (request : MidpointHotplaceRequest) : ℝ :=
  (participantDistancesKm h request).sum / (participantDistancesKm h request).length

/-- `distance_std` in `_calculate_distance_score`: population standard
deviation, or `0` for a single participant. -/
noncomputable def stdDistanceKm (h : MidpointHotplace)
    (request : MidpointHotplaceRequest) : ℝ :=
  if 1 < (participantDistancesKm h request).length then
    Real.sqrt ((((participantDistancesKm h request).map
      fun d => (d - meanDistanceKm h request) ^ 2).sum) /
        (participantDistancesKm h request).length)
  else 0

/-- `RecommendationService._calculate_distance_score`: returns the
component score plus the average and standard deviation of the
participant distances (absent on the neutral paths). -/
noncomputable def calculateDistanceScore (h : MidpointHotplace)
    (request : MidpointHotplaceRequest) : ℝ × Option ℝ × Option ℝ :=
  if ¬(-90 ≤ h.y ∧ h.y ≤ 90 ∧ -180 ≤ h.x ∧ h.x ≤ 180) then
    (neutralComponentScore, none, none)
  else if |h.x| < 1e-9 ∧ |h.y| < 1e-9 then
    (neutralComponentScore, none, none)
  else if participantDistancesKm h request = [] then (neutralComponentScore, none, none)
  else
    (distanceFairnessScore (meanDistanceKm h request) (stdDistanceKm h request),
     some (meanDistanceKm h request), some (stdDistanceKm h request))

/-- `RecommendationService._calculate_rating_score_and_confidence`:
returns `(rating_score, confidence_score, bayesian_rating)`. -/
noncomputable def calculateRatingScoreAndConfidence (h : MidpointHotplace) :
    ℝ × ℝ × Option ℝ :=
  match h.naver_rating with
  | none => (neutralComponentScore, neutralComponentScore, none)
  | some rating =>
    let ratingCount : ℤ := max (h.naver_rating_count.getD 0) 0
    let bayesianRating :=
      ((ratingCount : ℝ) / ((ratingCount : ℝ) + bayesianPriorWeight)) * rating +
        (bayesianPriorWeight / ((ratingCount : ℝ) + bayesianPriorWeight)) * bayesianPriorMean
    let ratingScore := clampUnit ((bayesianRating - ratingBaseline) / ratingSpan)
    let confidenceScore :=
      match h.naver_rating_count with
      | some _ =>
        clampUnit (Real.rpow
          (clampUnit (Real.log (1 + (ratingCount : ℝ)) /
            Real.log (1 + (ratingConfidenceMaxCount : ℝ))))
          reviewCountScoreExponent)
      | none => neutralComponentScore
    (ratingScore, confidenceScore, some bayesianRating)

/-- Python `round(x, 4)` on the final ranking score, modelled with
round-to-nearest at 4 decimal places. -/
noncomputable def roundDecimals4 (x : ℝ) : ℝ := ((round (x * 10000) : ℤ) : ℝ) / 10000

/-- Python `f"{x:.1f}"` for the non-negative magnitudes interpolated
into ranking reasons, modelled with round-to-nearest at 1 decimal. -/
noncomputable def formatOneDecimal (x : ℝ) : String :=
  let n : ℤ := round (x * 10)
  let sign := if n < 0 then "-" else ""
  let whole := n.natAbs / 10
  let frac := n.natAbs % 10
  sign ++ s!"{whole}.{frac}"

/-- Groups the decimal digits of an integer in threes, as Python's
`f"{n:,}"` format specifier does. -/
def commaChunkRev : List Char → List Char
  | a :: b :: c :: d :: rest => a :: b :: c :: ',' :: commaChunkRev (d :: rest)
  | l => l

/-- Python `f"{n:,}"`. -/
def commaGroup (n : ℤ) : String :=
  let sign := if n < 0 then "-" else ""
  sign ++ String.mk ((commaChunkRev (toString n.natAbs).data.reverse).reverse)

/-- `RecommendationService._build_ranking_reasons`. -/
noncomputable def buildRankingReasons (h : MidpointHotplace) (weatherKey : Option String)
    (activityCategory : String) (weatherScore : ℝ) (avgDistanceKm : Option ℝ) :
    List String :=
  let distanceReasons :=
    match avgDistanceKm with
    | some avg => ["참여자 평균 이동거리 " ++ formatOneDecimal avg ++ "km"]
    | none => []
  let weatherReasons :=
    match weatherKey with
    | some wk =>
      if wk ≠ "" ∧ wk ≠ "default" ∧ weatherScore ≥ 0.85 then
        [wk ++ " 날씨에 잘 맞는 " ++ activityCategory]
      else []
    | none => []
  let ratingReasons :=
    match h.naver_rating with
    | some rating =>
      match h.naver_rating_count with
      | some count => ["네이버 평점 " ++ formatOneDecimal rating ++ "점 (" ++ commaGroup count ++ "명)"]
      | none => ["네이버 평점 " ++ formatOneDecimal rating ++ "점"]
    | none => []
  let reasons := distanceReasons ++ weatherReasons ++ ratingReasons
  if reasons = [] then ["거리·날씨·별점 균형 점수"]
  else reasons.take 3

/-- The per-candidate body of `_rank_hotplaces`'s loop: score the
candidate and copy it with `ranking_score` and `ranking_reasons`
updated (`hotplace.model_copy(update={...})`). -/
noncomputable def rankHotplaceUpdate (request : MidpointHotplaceRequest)
    (weatherKey : Option String) (weights : RankingWeights)
    (h : MidpointHotplace) : MidpointHotplace :=
  let activityCategory := mapKeywordToPlayCategory (some h.source_keyword) h.category_name
  let ds := calculateDistanceScore h request
  let rc := calculateRatingScoreAndConfidence h
  let weatherScore := calculateWeatherSuitabilityScore weatherKey activityCategory
  let finalScore := clampUnit (weights.distance * ds.1 + weights.rating * rc.1 +
    weights.weather * weatherScore + weights.confidence * rc.2.1)
  let reasons := buildRankingReasons h weatherKey activityCategory weatherScore ds.2.1
  { h with ranking_score := some (roundDecimals4 finalScore), ranking_reasons := reasons }

/-- The 4-level sort key comparison of `_rank_hotplaces`: ascending
lexicographic comparison of `(-(score or 0), -(count or 0),
distance is None, distance or inf, kakao_place_id)`. -/
noncomputable def rankSortLe (a b : MidpointHotplace) : Bool :=
  let sa := -(a.ranking_score.getD 0)
  let sb := -(b.ranking_score.getD 0)
  let ca := -(a.naver_rating_count.getD 0)
  let cb := -(b.naver_rating_count.getD 0)
  let na := a.distance.isNone
  let nb := b.distance.isNone
  let da : WithTop ℤ := match a.distance with | some d => (d : WithTop ℤ) | none => ⊤
  let db : WithTop ℤ := match b.distance with | some d => (d : WithTop ℤ) | none => ⊤
  decide (sa < sb) || (decide (sa = sb) &&
    (decide (ca < cb) || (decide (ca = cb) &&
      ((!na && nb) || ((na == nb) &&
        (decide (da < db) || (decide (da = db) &&
          !decide (b.kakao_place_id < a.kakao_place_id))))))))

/-- `RecommendationService._rank_hotplaces`. -/
noncomputable def rankHotplaces (hotplaces : List MidpointHotplace)
    (request : MidpointHotplaceRequest) : List MidpointHotplace :=
  if hotplaces.isEmpty then hotplaces
  else
    let weatherKey := normalizeWeatherKey request.weather_key
    let weights := resolveRankingWeights weatherKey
    let rankedHotplaces := hotplaces.map (rankHotplaceUpdate request weatherKey weights)
    rankedHotplaces.mergeSort rankSortLe

/-- A Kakao Local API document as consumed by `_build_station` /
`_build_hotplace`: absent dict keys are `none`; numeric strings are
modelled as already-parsed rationals (`_to_float` / `_to_optional_int`
defaulting is applied at use sites). -/
structure KakaoPlaceDoc where
  id : Option String
  place_name : Option String
  category_name : Option String
  address_name : Option String
  road_address_name : Option String
  place_url : Option String
  x : Option ℚ
  y : Option ℚ
  distance : Option ℤ

/-- `IRRELEVANT_PLACE_STRONG_FILTER_TERMS`. -/
def irrelevantPlaceStrongFilterTerms : List String :=
  ["인테리어", "종합장식", "설비", "공사", "interior"]

/-- `IRRELEVANT_PLACE_DESIGN_TERMS`. -/
def irrelevantPlaceDesignTerms : List String := ["디자인", "design"]

/-- `IRRELEVANT_PLACE_DESIGN_CONTEXT_TERMS`. -/
def irrelevantPlaceDesignContextTerms : List String :=
  ["건축", "건설", "토목", "시공", "리모델링", "집수리", "도배", "장판", "타일", "샷시"]

/-- `RecommendationService._normalize_place_filter_text`:
`"".join(raw_text.strip().lower().split())`. -/
def normalizePlaceFilterText (rawText : Option String) : String :=
  match rawText with
  | none => ""
  | some raw => removeWhitespace (pyLower raw)

/-- `RecommendationService._is_irrelevant_place_for_play`. -/
def isIrrelevantPlaceForPlay (doc : KakaoPlaceDoc) : Bool :=
  let placeName := normalizePlaceFilterText doc.place_name
  let categoryName := normalizePlaceFilterText doc.category_name
  let addressName := normalizePlaceFilterText doc.address_name
  let roadAddressName := normalizePlaceFilterText doc.road_address_name
  let searchable := " ".intercalate
    (([placeName, categoryName, addressName, roadAddressName].filter fun t => t ≠ ""))
  if irrelevantPlaceStrongFilterTerms.any (strHasSub searchable) then true
  else
    let searchableNameCategory := " ".intercalate
      (([placeName, categoryName].filter fun t => t ≠ ""))
    let hasDesignTerm := irrelevantPlaceDesignTerms.any (strHasSub searchableNameCategory)
    if !hasDesignTerm then false
    else if irrelevantPlaceStrongFilterTerms.any (strHasSub searchableNameCategory) then true
    else if irrelevantPlaceDesignContextTerms.any (strHasSub searchableNameCategory) then true
    else pyEndsWith categoryName "디자인" || pyEndsWith placeName "디자인"

/-- `RecommendationService._normalize_station_name`. -/
def normalizeStationName (rawStationName : String) : String :=
  let stationName := pyStrip rawStationName
  let stripped :=
    if pyEndsWith stationName "역" then pyStrip (String.mk stationName.data.dropLast)
    else stationName
  if stripped = "" then pyStrip rawStationName else stripped

/-- `RecommendationService._build_station`. -/
noncomputable def buildStation (stationDoc : KakaoPlaceDoc) : Option MidpointStation :=
  let originalName := pyStrip (stationDoc.place_name.getD "")
  let stationId := pyStrip (stationDoc.id.getD "")
  if originalName = "" ∨ stationId = "" then none
  else some
    { kakao_place_id := stationId
      station_name := normalizeStationName originalName
      original_name := originalName
      category_name := stationDoc.category_name
      address_name := stationDoc.address_name
      road_address_name := stationDoc.road_address_name
      place_url := stationDoc.place_url
      x := ((stationDoc.x.getD 0 : ℚ) : ℝ)
      y := ((stationDoc.y.getD 0 : ℚ) : ℝ)
      distance := stationDoc.distance }

/-- `RecommendationService._build_default_activity_intro`. -/
def buildDefaultActivityIntro (placeName : String)
    (sourceStation sourceKeyword : Option String) (categoryName : Option String) : String :=
  let station := pyStrip (sourceStation.getD "")
  let keyword := pyStrip (sourceKeyword.getD "")
  let category := pyStrip (categoryName.getD "")
  if station ≠ "" ∧ keyword ≠ "" then
    placeName ++ "은 " ++ station ++ " 근처에서 " ++ keyword ++ "를 즐기기 좋은 장소예요."
  else if station ≠ "" ∧ category ≠ "" then
    placeName ++ "은 " ++ station ++ " 인근에서 " ++ category ++ " 분위기를 즐기기 좋아요."
  else if keyword ≠ "" then
    placeName ++ "은 " ++ keyword ++ " 중심의 활동을 찾을 때 가볍게 들르기 좋아요."
  else if category ≠ "" then
    placeName ++ "은 " ++ category ++ " 카테고리로 추천되는 장소예요."
  else placeName ++ "은 친구들과 함께 방문하기 좋은 장소예요."

/-- `RecommendationService._build_hotplace`: `None` when the id or name
is blank or the irrelevance filter rejects the document; enrichment
fields start at their schema defaults. -/
noncomputable def buildHotplace (placeDoc : KakaoPlaceDoc)
    (sourceStation sourceKeyword : String) : Option MidpointHotplace :=
  let placeId := pyStrip (placeDoc.id.getD "")
  let placeName := pyStrip (placeDoc.place_name.getD "")
  if placeId = "" ∨ placeName = "" then none
  else if isIrrelevantPlaceForPlay placeDoc then none
  else some
    { kakao_place_id := placeId
      place_name := placeName
      category_name := placeDoc.category_name
      address_name := placeDoc.address_name
      road_address_name := placeDoc.road_address_name
      place_url := placeDoc.place_url
      x := ((placeDoc.x.getD 0 : ℚ) : ℝ)
      y := ((placeDoc.y.getD 0 : ℚ) : ℝ)
      distance := placeDoc.distance
      source_station := sourceStation
      source_keyword := sourceKeyword
      activity_intro := some (buildDefaultActivityIntro placeName
        (some sourceStation) (some sourceKeyword) placeDoc.category_name)
      representative_image_url := none
      photo_urls := []
      naver_rating := none
      naver_rating_count := none
      photo_collection_status := "PENDING"
      photo_collection_reason := none
      ranking_score := none
      ranking_reasons := [] }

/-- First-seen-wins deduplication by a string key: the shape of the
`deduped_hotplaces: dict[str, ...]` insertion loop in
`get_midpoint_hotplaces` (Python dicts preserve insertion order). -/
def dedupFirstByKey (key : α → String) (l : List α) : List α :=
  l.foldl (fun acc x => if acc.any fun y => key y == key x then acc else acc ++ [x]) []

/-- The dedup stage of `get_midpoint_hotplaces`: flatten the per-task
`(source_station, source_keyword, documents)` triples in task order,
build hotplaces (skipping `None` builds), and keep the first occurrence
of each `kakao_place_id`. -/
noncomputable def dedupeHotplaces
    (keywordResults : List (String × String × List KakaoPlaceDoc)) :
    List MidpointHotplace :=
  let built := keywordResults.flatMap fun r =>
    r.2.2.filterMap fun doc => buildHotplace doc r.1 r.2.1
  dedupFirstByKey (fun h => h.kakao_place_id) built

/-- `RecommendationService._calculate_midpoint`: unweighted mean of the
participant coordinates. -/
noncomputable def calculateMidpoint (request : MidpointHotplaceRequest) : Midpoint :=
  { lat := (request.participants.map MidpointParticipant.lat).sum / request.participants.length
    lng := (request.participants.map MidpointParticipant.lng).sum / request.participants.length }

/-- `RecommendationService._calculate_expected_kakao_calls`. -/
def calculateExpectedKakaoCalls (stationLimit keywordCount pages : ℤ) : ℤ :=
  1 + stationLimit * keywordCount * pages

/-- The canonical content of `_build_cache_key`'s serialized payload.
The code serializes exactly these fields as sorted-key JSON and returns
`"midpoint-hotplaces:" + sha256(serialized)`; since the digest is a
fixed function of the serialized payload, key equality is modelled at
the payload (pre-image) level. -/
structure CacheKeyPayload where
  participants : List (ℝ ×ₗ ℝ)
  station_radius : ℤ
  place_radius : ℤ
  size : ℤ
  station_limit : ℤ
  pages : ℤ
  keywords : List String
  weather_key : Option String

/-- The `sorted(...)` list of participant coordinates rounded to 4
decimal places, as computed in `_build_cache_key` (Python sorts the
`(lat, lng)` tuples lexicographically). -/
noncomputable def participantLocationsSorted (request : MidpointHotplaceRequest) :
    List (ℝ ×ₗ ℝ) :=
  (request.participants.map fun p =>
    toLex (roundDecimals4 p.lat, roundDecimals4 p.lng)).mergeSort fun a b => decide (a ≤ b)

/-- `RecommendationService._build_cache_key`, at payload level. -/
noncomputable def buildCacheKey (request : MidpointHotplaceRequest) : CacheKeyPayload :=
  { participants := participantLocationsSorted request
    station_radius := request.station_radius
    place_radius := request.place_radius
    size := request.size
    station_limit := fixedStationLimit
    pages := fixedPages
    keywords := predefinedPlayKeywords
    weather_key := normalizeWeatherKey request.weather_key }

/-- `schemas/recommendation.MidpointHotplaceMeta`. -/
structure MidpointHotplaceMeta where
  participant_count : ℕ
  station_radius : ℤ
  station_limit : ℤ
  place_radius : ℤ
  keywords : List String
  size : ℤ
  pages : ℤ
  station_count : ℕ
  hotplace_count : ℕ
  keyword_request_count : ℕ
  kakao_api_call_count : ℕ
  executed_keyword_count : ℕ
  expected_kakao_api_call_count : ℤ
  actual_kakao_api_call_count : ℕ
  ranking_weather_key : Option String
  cache_hit : Bool
  cache_backend : String
  cache_ttl_seconds : ℤ

/-- `schemas/recommendation.MidpointHotplaceResponse`. -/
structure MidpointHotplaceResponse where
  midpoint : Midpoint
  chosen_stations : List MidpointStation
  hotplaces : List MidpointHotplace
  meta : MidpointHotplaceMeta

/-- An exception from a Kakao call: `isHttpException` distinguishes
FastAPI `HTTPException`s (whose status/detail are preserved by the
all-or-nothing re-wrap) from other exception types. -/
structure HttpError where
  isHttpException : Bool
  statusCode : ℤ
  detail : String
deriving DecidableEq

/-- Service configuration read from the environment in `__init__`. -/
structure ServiceConfig where
  maxKakaoCallsPerRequest : ℤ
  cacheTtlSeconds : ℤ

/-- One keyword fan-out task: a `(station, keyword, page)` combination
passed to `_fetch_keyword_page`. -/
structure AggTask where
  station : MidpointStation
  keyword : String
  page : ℤ

/-- The external collaborators of `get_midpoint_hotplaces`, fixed per
request: the cache lookup outcome, the anchor (station) search outcome
and the per-task keyword search outcomes. -/
structure AggEnv where
  config : ServiceConfig
  cachedResponse : Option MidpointHotplaceResponse
  cacheBackendName : String
  stationSearch : Except HttpError (List KakaoPlaceDoc)
  keywordSearch : AggTask → Except HttpError (List KakaoPlaceDoc)

/-- Externally observable effects of one `get_midpoint_hotplaces` run,
in program order. -/
inductive AggEvent
  | cacheLookup
  | stationSearch
  | keywordSearch (stationName keyword : String) (page : ℤ)
  | cacheWrite
deriving DecidableEq

/-- The stations retained from the anchor search:
`_build_station` applied per document, `None`s dropped, then
`[:applied_station_limit]`. -/
noncomputable def chosenStationsOf (stationDocs : List KakaoPlaceDoc) : List MidpointStation :=
  (stationDocs.filterMap buildStation).take fixedStationLimit.toNat

/-- The fan-out task list: one task per
`station × predefined keyword × page` combination, in the order the
source builds them (`for station ... for keyword ... for page`). -/
noncomputable def aggTasks (stations : List MidpointStation) : List AggTask :=
  stations.flatMap fun st => predefinedPlayKeywords.flatMap fun kw =>
    (List.range fixedPages.toNat).map fun p =>
      { station := st, keyword := kw, page := (p : ℤ) + 1 }

/-- The error component of an `Except`, if any. -/
def exceptError? : Except ε α → Option ε
  | .error e => some e
  | .ok _ => none

/-- The first failing keyword task in task order — the exception that
`asyncio.gather` propagates in the sequential model of the fan-out. -/
noncomputable def firstKeywordError (env : AggEnv) (tasks : List AggTask) : Option HttpError :=
  tasks.findSome? fun t => exceptError? (env.keywordSearch t)

/-- The all-or-nothing re-wrap applied when the keyword batch fails:
an `HTTPException` keeps its status code and gets the policy suffix,
anything else becomes a 502 with the generic policy detail. -/
def allOrNothingWrap (e : HttpError) : HttpError :=
  if e.isHttpException then
    { isHttpException := true
      statusCode := e.statusCode
      detail := e.detail ++
        ". The entire midpoint-hotplaces request failed due to all-or-nothing policy." }
  else
    { isHttpException := true
      statusCode := 502
      detail := "Midpoint-hotplaces request failed due to one or more keyword search failures (all-or-nothing policy)." }

/-- The HTTP 400 raised by the pre-flight call-budget guard. -/
def budgetGuardError (expectedCalls limitValue keywordCount : ℤ) : HttpError :=
  { isHttpException := true
    statusCode := 400
    detail := s!"Expected Kakao API calls exceed guard (expected={expectedCalls}, limit={limitValue}). station_limit={fixedStationLimit}, keyword_count={keywordCount}, pages={fixedPages}" }

/-- `RecommendationService.get_midpoint_hotplaces`, with a `session` of
`None` (so `_attach_hotplace_features` is the identity) and the
ingestion enqueue disabled (its default).  Returns the result together
with the trace of external effects in program order; the keyword batch
drains every task (gather's siblings are not cancelled), so all keyword
call events are recorded even when one of them fails. -/
noncomputable def getMidpointHotplaces (env : AggEnv)
    (request : MidpointHotplaceRequest) :
    Except HttpError MidpointHotplaceResponse × List AggEvent :=
  let appliedKeywords := predefinedPlayKeywords
  let normalizedWeatherKey := normalizeWeatherKey request.weather_key
  let expectedKakaoCalls :=
    calculateExpectedKakaoCalls fixedStationLimit (appliedKeywords.length : ℤ) fixedPages
  if expectedKakaoCalls > env.config.maxKakaoCallsPerRequest then
    (.error (budgetGuardError expectedKakaoCalls env.config.maxKakaoCallsPerRequest
      (appliedKeywords.length : ℤ)), [])
  else
    let midpoint := calculateMidpoint request
    match env.cachedResponse with
    | some cached =>
      let cachedMeta :=
        { cached.meta with
            participant_count := request.participants.length
            station_radius := request.station_radius
            station_limit := fixedStationLimit
            place_radius := request.place_radius
            keywords := appliedKeywords
            pages := fixedPages
            cache_hit := true
            cache_backend := env.cacheBackendName
            cache_ttl_seconds := env.config.cacheTtlSeconds
            executed_keyword_count := 0
            expected_kakao_api_call_count := expectedKakaoCalls
            actual_kakao_api_call_count := 0
            kakao_api_call_count := 0
            ranking_weather_key := normalizedWeatherKey }
      (.ok { cached with
              meta := cachedMeta
              hotplaces := rankHotplaces cached.hotplaces request },
       [.cacheLookup])
    | none =>
      match env.stationSearch with
      | .error e => (.error e, [.cacheLookup, .stationSearch])
      | .ok stationDocs =>
        let stations := chosenStationsOf stationDocs
        if stations.isEmpty then
          (.ok { midpoint := midpoint, chosen_stations := [], hotplaces := []
                 meta :=
                  { participant_count := request.participants.length
                    station_radius := request.station_radius
                    station_limit := fixedStationLimit
                    place_radius := request.place_radius
                    keywords := appliedKeywords
                    size := request.size
                    pages := fixedPages
                    station_count := 0
                    hotplace_count := 0
                    keyword_request_count := 0
                    kakao_api_call_count := 1
                    executed_keyword_count := 0
                    expected_kakao_api_call_count := expectedKakaoCalls
                    actual_kakao_api_call_count := 1
                    ranking_weather_key := normalizedWeatherKey
                    cache_hit := false
                    cache_backend := env.cacheBackendName
                    cache_ttl_seconds := env.config.cacheTtlSeconds } },
           [.cacheLookup, .stationSearch])
        else
          let tasks := aggTasks stations
          let events := [AggEvent.cacheLookup, AggEvent.stationSearch] ++
            tasks.map fun t => AggEvent.keywordSearch t.station.station_name t.keyword t.page
          match firstKeywordError env tasks with
          | some e => (.error (allOrNothingWrap e), events)
          | none =>
            let keywordResults := tasks.map fun t =>
              (t.station.station_name, t.keyword, (env.keywordSearch t).toOption.getD [])
            let deduped := dedupeHotplaces keywordResults
            let hotplaces := rankHotplaces deduped request
            let response : MidpointHotplaceResponse :=
              { midpoint := midpoint
                chosen_stations := stations
                hotplaces := hotplaces
                meta :=
                  { participant_count := request.participants.length
                    station_radius := request.station_radius
                    station_limit := fixedStationLimit
                    place_radius := request.place_radius
                    keywords := appliedKeywords
                    size := request.size
                    pages := fixedPages
                    station_count := stations.length
                    hotplace_count := hotplaces.length
                    keyword_request_count := tasks.length
                    kakao_api_call_count := 1 + tasks.length
                    executed_keyword_count := appliedKeywords.length
                    expected_kakao_api_call_count := expectedKakaoCalls
                    actual_kakao_api_call_count := 1 + tasks.length
                    ranking_weather_key := normalizedWeatherKey
                    cache_hit := false
                    cache_backend := env.cacheBackendName
                    cache_ttl_seconds := env.config.cacheTtlSeconds } }
            (.ok response, events ++ [.cacheWrite])

/-- Which cache backend served a call (`"redis"` / `"memory"` in the
source's return values). -/
inductive CacheBackendUsed
  | redis
  | memory
deriving DecidableEq

/-- Outcome of one attempted Redis call: a successful `get` carries the
stored payload (or `none` on a miss); `fail` stands for any exception
raised inside the `try` block (connection failure, bad payload, ...). -/
inductive RedisCallOutcome
  | ok (payload : Option String)
  | fail
deriving DecidableEq

/-- The mutable cache-selection state of a `RecommendationService`
instance: the `_redis_enabled` flag, whether `_redis_client` was built
at construction, and the in-process `_memory_cache` map
(key ↦ (expires_at, payload), insertion-ordered). -/
structure CacheState where
  redisEnabled : Bool
  hasRedisClient : Bool
  memoryCache : List (String × ℚ × String)

/-- Lookup in the in-process map. -/
def memoryLookup (mem : List (String × ℚ × String)) (key : String) : Option (ℚ × String) :=
  (mem.find? fun e => e.1 == key).map fun e => e.2

/-- `dict.pop(key, None)` on the in-process map. -/
def memoryErase (mem : List (String × ℚ × String)) (key : String) :
    List (String × ℚ × String) :=
  mem.filter fun e => !(e.1 == key)

/-- `self._memory_cache[key] = (expires_at, payload)`: overwrite in
place, or append for a new key (Python dict insertion-order
semantics). -/
def memoryStore (mem : List (String × ℚ × String)) (key : String)
    (expiresAt : ℚ) (payload : String) : List (String × ℚ × String) :=
  if mem.any fun e => e.1 == key then
    mem.map fun e => if e.1 == key then (key, expiresAt, payload) else e
  else mem ++ [(key, expiresAt, payload)]

/-- The in-process half of `_get_cached_response`: check expiry,
dropping an expired entry.  (Payloads in this map were serialized by the
service itself, so the deserialize-failure branch of the source cannot
fire and is not modelled.) -/
def memoryGetPart (st : CacheState) (key : String) (now : ℚ) :
    Option String × CacheBackendUsed × CacheState :=
  match memoryLookup st.memoryCache key with
  | none => (none, .memory, st)
  | some (expiresAt, payload) =>
    if expiresAt ≤ now then
      (none, .memory, { st with memoryCache := memoryErase st.memoryCache key })
    else (some payload, .memory, st)

/-- `RecommendationService._get_cached_response`: try Redis while the
selector allows it, demote (`_redis_enabled = False`) on any Redis
exception and fall through to the in-process store. -/
def getCachedResponseStep (st : CacheState) (key : String) (now : ℚ)
    (redisOutcome : RedisCallOutcome) : Option String × CacheBackendUsed × CacheState :=
  if st.redisEnabled ∧ st.hasRedisClient then
    match redisOutcome with
    | .ok payload =>
      match payload with
      | some p => if p ≠ "" then (some p, .redis, st) else (none, .redis, st)
      | none => (none, .redis, st)
    | .fail => memoryGetPart { st with redisEnabled := false } key now
  else memoryGetPart st key now

/-- `RecommendationService._set_cached_response`: `setex` on Redis while
the selector allows it, demote on any Redis exception and write to the
in-process store instead. -/
def setCachedResponseStep (st : CacheState) (key payload : String) (now ttl : ℚ)
    (redisOutcome : RedisCallOutcome) : CacheBackendUsed × CacheState :=
  if st.redisEnabled ∧ st.hasRedisClient then
    match redisOutcome with
    | .ok _ => (.redis, st)
    | .fail =>
      let st1 : CacheState := { st with redisEnabled := false }
      (.memory, { st1 with memoryCache := memoryStore st1.memoryCache key (now + ttl) payload })
  else (.memory, { st with memoryCache := memoryStore st.memoryCache key (now + ttl) payload })

/-- One cache interaction: a get or a set, bundled with the time of the
call and the outcome the Redis backend would produce for it. -/
inductive CacheOp
  | get (key : String) (now : ℚ) (redisOutcome : RedisCallOutcome)
  | set (key payload : String) (now ttl : ℚ) (redisOutcome : RedisCallOutcome)

/-- Process one cache interaction, returning the backend that served it
and the successor state. -/
def cacheStep (st : CacheState) : CacheOp → CacheBackendUsed × CacheState
  | .get key now r =>
    ((getCachedResponseStep st key now r).2.1, (getCachedResponseStep st key now r).2.2)
  | .set key payload now ttl r => setCachedResponseStep st key payload now ttl r

/-- Process a sequence of cache interactions, collecting the backend
used for each. -/
def cacheRun (st : CacheState) : List CacheOp → List CacheBackendUsed × CacheState
  | [] => ([], st)
  | op :: ops =>
    ((cacheStep st op).1 :: (cacheRun (cacheStep st op).2 ops).1,
     (cacheRun (cacheStep st op).2 ops).2)

/-- The op's Redis call is actually attempted in state `st` and fails. -/
def redisCallFails (st : CacheState) : CacheOp → Prop
  | .get _ _ r => st.redisEnabled = true ∧ st.hasRedisClient = true ∧ r = .fail
  | .set _ _ _ _ r => st.redisEnabled = true ∧ st.hasRedisClient = true ∧ r = .fail

/-- `naver_place._NoGrowthGuard`'s state. -/
structure NoGrowthGuard where
  limit : ℕ
  lastCount : ℕ
  streak : ℕ

/-- `_NoGrowthGuard.__init__(limit, baseline)`. -/
def NoGrowthGuard.init (limit baseline : ℕ) : NoGrowthGuard :=
  { limit := max 1 limit, lastCount := baseline, streak := 0 }

/-- `_NoGrowthGuard.observe`: `True` means the stall streak reached the
limit and expansion must stop. -/
def NoGrowthGuard.observe (g : NoGrowthGuard) (currentCount : ℕ) : Bool × NoGrowthGuard :=
  if g.lastCount < currentCount then
    (false, { g with lastCount := currentCount, streak := 0 })
  else
    let streak := g.streak + 1
    (decide (g.limit ≤ streak), { g with streak := streak })

/-- The `for click_index in range(1, review_max_clicks + 1)` expansion
loop of `_crawl_reviews_with_page`, counting loop-body iterations
attempted.  `counts i` is the deduplicated collected-review total after
iteration `i`'s re-extract and merge; `clickOk i` is whether the
"load more" click of iteration `i` succeeded (`_safe_click`).  A failed
click or a positive guard observation breaks the loop. -/
def reviewExpandLoop (counts : ℕ → ℕ) (clickOk : ℕ → Bool) :
    ℕ → ℕ → NoGrowthGuard → ℕ
  | _, 0, _ => 0
  | clickIndex, remaining + 1, guard =>
    if clickOk clickIndex then
      let ob := guard.observe (counts clickIndex)
      if ob.1 then 1
      else 1 + reviewExpandLoop counts clickOk (clickIndex + 1) remaining ob.2
    else 1

/-- Total expansion iterations attempted by `_crawl_reviews_with_page`
for a page whose per-iteration deduplicated totals are `counts`,
starting from `baseline` initially collected reviews, with ceiling
`maxClicks` (`config.review_max_clicks`) and stall limit
`noGrowthLimit` (`config.no_growth_limit`). -/
def crawlReviewsIterations (maxClicks noGrowthLimit baseline : ℕ)
    (counts : ℕ → ℕ) (clickOk : ℕ → Bool) : ℕ :=
  reviewExpandLoop counts clickOk 1 maxClicks (NoGrowthGuard.init noGrowthLimit baseline)

/-- `MAP_MIN_CONFIDENCE` in `naver_place.py`. -/
def mapMinConfidence : ℚ := 0.50

/-- Python `round(x, 4)` on a rational. -/
def roundQ4 (x : ℚ) : ℚ := ((round (x * 10000) : ℤ) : ℚ) / 10000

/-- Python `round(x, 2)` on a rational. -/
def roundQ2 (x : ℚ) : ℚ := ((round (x * 100) : ℤ) : ℚ) / 100

/-- A character kept by `NON_WORD_PATTERN`'s complement:
`[0-9a-z가-힣\s]` (case-insensitively; applied to lowered text). -/
def isNaverWordChar (c : Char) : Bool :=
  c.isDigit || c.isAlpha || (0xAC00 ≤ c.toNat && c.toNat ≤ 0xD7A3) || c.isWhitespace

/-- `NON_WORD_PATTERN.sub("", raw_token.lower())`. -/
def stripNonWordChars (tok : String) : String :=
  String.mk ((pyLower tok).data.filter isNaverWordChar)

/-- `naver_place._extract_region_tokens` with its default
`max_tokens=3`. -/
def extractRegionTokens (address : Option String) : List String :=
  if (address.getD "") = "" then []
  else
    let rawTokens := pySplitWhitespace (pyStrip (address.getD ""))
    ((rawTokens.map stripNonWordChars).filter fun t =>
      2 ≤ t.length ∧ ¬(t.data.all Char.isDigit)).take 3

/-- A raw mapping candidate scraped from the search surface, as passed
into `_select_best_mapping_candidate`. -/
structure NaverRawCandidate where
  naver_place_id : Option String
  matched_name : Option String
  x : Option ℚ
  y : Option ℚ
  snippet : Option String
  source_url : Option String
deriving DecidableEq

/-- A scored mapping candidate (`scored` dict in
`_select_best_mapping_candidate`). -/
structure NaverScoredCandidate where
  naver_place_id : String
  matched_name : String
  confidence : ℚ
  distance_m : Option ℚ
  name_score : ℚ
  region_score : ℚ
  distance_score : ℚ
  x : Option ℚ
  y : Option ℚ
  source_url : Option String
  snippet : Option String
deriving DecidableEq

/-- The numeric similarity kernels of the resolver, kept abstract: the
source computes `_name_similarity` with `difflib.SequenceMatcher` plus
token overlap, `_region_similarity` as a token-containment ratio, and
`_haversine_distance_m` with trigonometry.  Only their output values
feed the selection logic under scrutiny, so they are parameters of the
model; `haversineM lat1 lng1 lat2 lng2` is the distance in metres used
when all four coordinates are present. -/
structure SimilarityOracle where
  nameSimilarity : String → String → ℚ
  regionSimilarity : List String → String → ℚ
  haversineM : ℚ → ℚ → ℚ → ℚ → ℚ

/-- The 5-level sort key of `_select_best_mapping_candidate`: ascending
`(-confidence, -region_score, -name_score, distance_m or inf,
naver_place_id)`. -/
def mappingSortLe (a b : NaverScoredCandidate) : Bool :=
  let da : WithTop ℚ := match a.distance_m with | some d => (d : WithTop ℚ) | none => ⊤
  let db : WithTop ℚ := match b.distance_m with | some d => (d : WithTop ℚ) | none => ⊤
  decide (b.confidence < a.confidence) || (decide (a.confidence = b.confidence) &&
    (decide (b.region_score < a.region_score) || (decide (a.region_score = b.region_score) &&
      (decide (b.name_score < a.name_score) || (decide (a.name_score = b.name_score) &&
        (decide (da < db) || (decide (da = db) &&
          !decide (b.naver_place_id < a.naver_place_id))))))))

/-- The candidate-scoring loop of `_select_best_mapping_candidate`:
drops candidates without id or name and computes the convex-combination
confidence with the distance bucketing and far-distance penalties. -/
def scoreMappingCandidates (oracle : SimilarityOracle) (placeName : String)
    (candidates : List NaverRawCandidate) (kakaoX kakaoY : Option ℚ)
    (kakaoAddress : Option String) : List NaverScoredCandidate :=
  let regionTokens := extractRegionTokens kakaoAddress
  candidates.filterMap fun candidate =>
    let naverPlaceId := pyStrip (candidate.naver_place_id.getD "")
    let matchedName := pyStrip (candidate.matched_name.getD "")
    if naverPlaceId = "" ∨ matchedName = "" then none
    else
      let distanceM : Option ℚ :=
        match kakaoX, kakaoY, candidate.x, candidate.y with
        | some kx, some ky, some cx, some cy => some (oracle.haversineM ky kx cy cx)
        | _, _, _, _ => none
      let snippet := pyStrip (candidate.snippet.getD "")
      let regionText := " ".intercalate
        (([matchedName, snippet, candidate.source_url.getD ""].filter fun t => t ≠ ""))
      let regionScore := oracle.regionSimilarity regionTokens regionText
      let nameScore := oracle.nameSimilarity placeName matchedName
      let distanceScore : ℚ :=
        match distanceM with
        | none => 0
        | some d =>
          if d ≤ 300 then 1
          else if d ≤ 1000 then 0.8
          else if d ≤ 3000 then 0.5
          else if d ≤ 5000 then 0.2
          else 0
      let confidence0 : ℚ :=
        match distanceM with
        | none => nameScore * 0.78 + regionScore * 0.22
        | some _ => nameScore * 0.55 + regionScore * 0.10 + distanceScore * 0.35
      let confidence1 : ℚ :=
        match distanceM with
        | some d =>
          if 10000 < d then confidence0 - 0.35
          else if 5000 < d then confidence0 - 0.18
          else confidence0
        | none => confidence0
      let confidence := max 0 (min 1 confidence1)
      some
        { naver_place_id := naverPlaceId
          matched_name := matchedName
          confidence := roundQ4 confidence
          distance_m := distanceM.map roundQ2
          name_score := roundQ4 nameScore
          region_score := roundQ4 regionScore
          distance_score := roundQ4 distanceScore
          x := candidate.x
          y := candidate.y
          source_url := candidate.source_url
          snippet := if snippet = "" then none else some snippet }

/-- `naver_place._select_best_mapping_candidate`: scores, sorts by the
5-level key, applies the ambiguity rejection on the top two. -/
def selectBestMappingCandidate (oracle : SimilarityOracle) (placeName : String)
    (candidates : List NaverRawCandidate) (kakaoX kakaoY : Option ℚ)
    (kakaoAddress : Option String) :
    Option NaverScoredCandidate × List NaverScoredCandidate :=
  if (scoreMappingCandidates oracle placeName candidates kakaoX kakaoY
      kakaoAddress).isEmpty then (none, [])
  else
    match (scoreMappingCandidates oracle placeName candidates kakaoX kakaoY
      kakaoAddress).mergeSort mappingSortLe with
    | [] => (none, [])
    | best :: rest =>
      match rest with
      | [] => (some best, best :: rest)
      | second :: _ =>
        if best.confidence - second.confidence < 0.08 ∧
            (best.distance_m.isNone ∧ second.distance_m.isNone) ∧
            max best.region_score second.region_score < 0.34 then
          (none, best :: rest)
        else (some best, best :: rest)

/-- The Kakao place context fetched by `_fetch_kakao_place_context`. -/
structure KakaoPlaceContext where
  resolved : Bool
  kakao_doc_id : Option String
  place_name : Option String
  x : Option ℚ
  y : Option ℚ
  road_address_name : Option String
  address_name : Option String
deriving DecidableEq

/-- The external collaborators of `resolve_naver_place_mapping`: each
`Except.error` stands for an exception raised by that stage, all of
which the source's `try` block turns into a `search_error` result. -/
structure ResolveEnv where
  oracle : SimilarityOracle
  kakaoContext : Except String KakaoPlaceContext
  browserSession : Except String Unit
  mappingCandidates : Except String (List NaverRawCandidate)

/-- The structured mapping payload returned by
`resolve_naver_place_mapping` (`_safe_build_mapping_payload` plus the
success-path updates; the `kakao_context` / `mapping_queries` debug
entries are not modelled). -/
structure NaverMappingPayload where
  kakao_place_id : String
  place_name : Option String
  input_x : Option ℚ
  input_y : Option ℚ
  status : String
  reason : Option String
  naver_place_id : Option String
  matched_name : Option String
  confidence : ℚ
  distance_m : Option ℚ
  candidate_count : ℕ
  crawlable : Bool
  top_candidates : List NaverScoredCandidate
deriving DecidableEq

/-- `naver_place._safe_build_mapping_payload`. -/
def safeBuildMappingPayload (kakaoPlaceId : String) (placeName : Option String)
    (x y : Option ℚ) : NaverMappingPayload :=
  { kakao_place_id := kakaoPlaceId
    place_name := placeName
    input_x := x
    input_y := y
    status := "SKIPPED"
    reason := some "unresolved"
    naver_place_id := none
    matched_name := none
    confidence := 0
    distance_m := none
    candidate_count := 0
    crawlable := false
    top_candidates := [] }

/-- Python `a or b or ""` over optional strings: the first truthy
(non-`None`, non-empty) value. -/
def firstTruthyString (a b : Option String) : String :=
  match a with
  | some s => if s ≠ "" then s else (b.getD "")
  | none => b.getD ""

/-- `road_address_name.strip() or address_name.strip() or None` from
the resolved Kakao context. -/
def resolvedAddressOf (ctx : KakaoPlaceContext) : Option String :=
  let road := pyStrip (ctx.road_address_name.getD "")
  let addr := pyStrip (ctx.address_name.getD "")
  if road ≠ "" then some road else if addr ≠ "" then some addr else none

/-- The `_select_best_mapping_candidate` invocation made from
`resolve_naver_place_mapping`, with the context-resolved name,
coordinates and address substituted exactly as the call site does. -/
def resolveSelection (env : ResolveEnv) (placeName : Option String)
    (x y : Option ℚ) (ctx : KakaoPlaceContext)
    (candidates : List NaverRawCandidate) :
    Option NaverScoredCandidate × List NaverScoredCandidate :=
  let resolvedPlaceName := pyStrip (firstTruthyString ctx.place_name placeName)
  selectBestMappingCandidate env.oracle
    (if resolvedPlaceName ≠ "" then resolvedPlaceName else placeName.getD "")
    candidates
    (if ctx.x.isSome then ctx.x else x)
    (if ctx.y.isSome then ctx.y else y)
    (resolvedAddressOf ctx)

/-- `naver_place.resolve_naver_place_mapping`. -/
def resolveNaverPlaceMapping (env : ResolveEnv) (kakaoPlaceId : String)
    (placeName : Option String) (x y : Option ℚ) : NaverMappingPayload :=
  let payload := safeBuildMappingPayload kakaoPlaceId placeName x y
  if pyStrip (placeName.getD "") = "" then { payload with reason := some "missing_place_name" }
  else
    match env.kakaoContext with
    | .error _ => { payload with reason := some "search_error" }
    | .ok ctx =>
      match env.browserSession with
      | .error _ => { payload with reason := some "search_error" }
      | .ok _ =>
        match env.mappingCandidates with
        | .error _ => { payload with reason := some "search_error" }
        | .ok candidates =>
          let payload1 := { payload with candidate_count := candidates.length }
          let sel := resolveSelection env placeName x y ctx candidates
          match sel.1 with
          | none =>
            { payload1 with reason :=
                if sel.2.isEmpty then some "no_candidates" else some "ambiguous_candidates" }
          | some best =>
            let payload2 :=
              { payload1 with
                  confidence := best.confidence
                  distance_m := best.distance_m
                  matched_name := some best.matched_name
                  top_candidates := sel.2.take 3 }
            if best.confidence < mapMinConfidence then
              { payload2 with reason := some "low_confidence" }
            else
              { payload2 with
                  status := "MAPPED"
                  reason := none
                  naver_place_id := some best.naver_place_id
                  crawlable := true }

/-- Two hotplaces agree on every field except `ranking_score` and
`ranking_reasons`. -/
def OnlyRankingFieldsDiffer (a b : MidpointHotplace) : Prop :=
  a.kakao_place_id = b.kakao_place_id ∧ a.place_name = b.place_name ∧
  a.category_name = b.category_name ∧ a.address_name = b.address_name ∧
  a.road_address_name = b.road_address_name ∧ a.place_url = b.place_url ∧
  a.x = b.x ∧ a.y = b.y ∧ a.distance = b.distance ∧
  a.source_station = b.source_station ∧ a.source_keyword = b.source_keyword ∧
  a.activity_intro = b.activity_intro ∧
  a.representative_image_url = b.representative_image_url ∧
  a.photo_urls = b.photo_urls ∧ a.naver_rating = b.naver_rating ∧
  a.naver_rating_count = b.naver_rating_count ∧
  a.photo_collection_status = b.photo_collection_status ∧
  a.photo_collection_reason = b.photo_collection_reason

/-- The stations a run of `get_midpoint_hotplaces` retains, as a
function of the environment (empty when the anchor search fails). -/
noncomputable def aggStations (env : AggEnv) : List MidpointStation :=
  match env.stationSearch with
  | .error _ => []
  | .ok stationDocs => chosenStationsOf stationDocs

/-- The `(source_station, source_keyword, documents)` triples gathered
from the keyword fan-out when every task succeeds. -/
noncomputable def aggKeywordResults (env : AggEnv) :
    List (String × String × List KakaoPlaceDoc) :=
  (aggTasks (aggStations env)).map fun t =>
    (t.station.station_name, t.keyword, (env.keywordSearch t).toOption.getD [])

/-- All hotplaces built from the fan-out results in first-seen order,
before deduplication. -/
noncomputable def aggBuiltHotplaces (env : AggEnv) : List MidpointHotplace :=
  (aggKeywordResults env).flatMap fun r =>
    r.2.2.filterMap fun doc => buildHotplace doc r.1 r.2.1

/-- The request fixture of the repository's recommendation-service
tests (`_build_request`). -/
noncomputable def sampleRequest : MidpointHotplaceRequest :=
  { participants := [{ lat := 37.0, lng := 127.0 }, { lat := 37.5, lng := 127.5 }]
    station_radius := 2000
    station_limit := 7
    place_radius := 800
    keywords := ["맛집"]
    size := 5
    pages := 9
    weather_key := none }

/-- The `강남역` station document fixture of the repository's tests. -/
def sampleStationDoc : KakaoPlaceDoc :=
  { id := some "station-1"
    place_name := some "강남역"
    category_name := none
    address_name := none
    road_address_name := none
    place_url := none
    x := some 127.0276
    y := some 37.4979
    distance := some 80 }

/-- A keyword-search place document fixture. -/
def samplePlaceDoc : KakaoPlaceDoc :=
  { id := some "place-1"
    place_name := some "볼링장-테스트장소"
    category_name := none
    address_name := none
    road_address_name := none
    place_url := none
    x := some 127.0276
    y := some 37.4979
    distance := some 120 }

/-- A duplicate-id place document with a different name, to exercise
first-seen-wins deduplication. -/
def samplePlaceDocDup : KakaoPlaceDoc :=
  { samplePlaceDoc with place_name := some "볼링장-중복장소" }

/-- The forced keyword failure of the repository's all-or-nothing test
(`HTTPException(status_code=503, ...)`). -/
def forcedKeywordFailure : HttpError :=
  { isHttpException := true, statusCode := 503, detail := "forced keyword failure" }

/-- Environment with the call budget lowered to 50, as in the
repository's guard test (`MAX_KAKAO_CALLS_PER_REQUEST=50`). -/
def envBudgetExceeded : AggEnv :=
  { config := { maxKakaoCallsPerRequest := 50, cacheTtlSeconds := 900 }
    cachedResponse := none
    cacheBackendName := "memory"
    stationSearch := .ok []
    keywordSearch := fun _ => .ok [] }

/-- Environment in which every keyword search fails with the forced
503, as in the repository's all-or-nothing test. -/
def envKeywordFailure : AggEnv :=
  { config := { maxKakaoCallsPerRequest := 70, cacheTtlSeconds := 900 }
    cachedResponse := none
    cacheBackendName := "memory"
    stationSearch := .ok [sampleStationDoc]
    keywordSearch := fun _ => .error forcedKeywordFailure }

/-- Environment in which the fan-out succeeds and the first keyword
returns the same place twice (duplicate external id). -/
def envAllOk : AggEnv :=
  { config := { maxKakaoCallsPerRequest := 70, cacheTtlSeconds := 900 }
    cachedResponse := none
    cacheBackendName := "memory"
    stationSearch := .ok [sampleStationDoc]
    keywordSearch := fun t =>
      .ok (if t.keyword = "볼링장" then [samplePlaceDoc, samplePlaceDocDup] else []) }

/-- The zero-rated hotplace of the repository's zero-rating test
(`rating=0.0, rating_count=120`). -/
noncomputable def zeroRatedHotplace : MidpointHotplace :=
  { kakao_place_id := "zero-rated"
    place_name := "zero-rated-name"
    category_name := none
    address_name := none
    road_address_name := none
    place_url := none
    x := 127.03
    y := 37.5
    distance := none
    source_station := "강남"
    source_keyword := "보드게임카페"
    activity_intro := none
    representative_image_url := none
    photo_urls := []
    naver_rating := some 0
    naver_rating_count := some 120
    photo_collection_status := "PENDING"
    photo_collection_reason := none
    ranking_score := none
    ranking_reasons := [] }

/-- The positively rated sibling of the zero-rating test
(`rating=4.1, rating_count=40`). -/
noncomputable def positiveRatedHotplace : MidpointHotplace :=
  { zeroRatedHotplace with
      kakao_place_id := "positive-rated"
      place_name := "positive-rated-name"
      naver_rating := some 4.1
      naver_rating_count := some 40 }

/-- The two-participant request of the zero-rating test. -/
noncomputable def zeroRatingRequest : MidpointHotplaceRequest :=
  { participants := [{ lat := 37.5, lng := 127.0 }, { lat := 37.5, lng := 127.06 }]
    station_radius := 2000
    station_limit := 2
    place_radius := 800
    keywords := ["맛집", "놀거리"]
    size := 15
    pages := 2
    weather_key := none }

/-- Single-participant request for distance-score instantiations. -/
noncomputable def c6Request : MidpointHotplaceRequest :=
  { zeroRatingRequest with participants := [{ lat := 37.5, lng := 127.0 }] }

/-- `c5RequestA` and `c5RequestB` differ only in participant order;
`c5RequestC` differs from `c5RequestA` only in weather key. -/
noncomputable def c5RequestA : MidpointHotplaceRequest :=
  { sampleRequest with weather_key := some "비" }

/-- Same request with the participants listed in the other order. -/
noncomputable def c5RequestB : MidpointHotplaceRequest :=
  { c5RequestA with
      participants := [{ lat := 37.5, lng := 127.5 }, { lat := 37.0, lng := 127.0 }] }

/-- Same request with a different (normalized) weather key. -/
noncomputable def c5RequestC : MidpointHotplaceRequest :=
  { c5RequestA with weather_key := some "맑음" }

/-- Degenerate similarity oracle: name similarity 1/2 everywhere, no
region signal, zero distances. -/
def halfNameOracle : SimilarityOracle :=
  { nameSimilarity := fun _ _ => 1/2
    regionSimilarity := fun _ _ => 0
    haversineM := fun _ _ _ _ => 0 }

/-- An empty Kakao context (nothing resolved). -/
def emptyKakaoContext : KakaoPlaceContext :=
  { resolved := false, kakao_doc_id := none, place_name := none, x := none, y := none
    road_address_name := none, address_name := none }

/-- First of two coordinate-less, region-less candidates that tie on
name similarity. -/
def ambRawCandidateA : NaverRawCandidate :=
  { naver_place_id := some "111", matched_name := some "가게"
    x := none, y := none, snippet := none, source_url := none }

/-- Second of the two tied candidates. -/
def ambRawCandidateB : NaverRawCandidate :=
  { ambRawCandidateA with naver_place_id := some "222" }

/-- Resolver environment producing the two tied candidates. -/
def resolveEnvAmbiguous : ResolveEnv :=
  { oracle := halfNameOracle
    kakaoContext := .ok emptyKakaoContext
    browserSession := .ok ()
    mappingCandidates := .ok [ambRawCandidateA, ambRawCandidateB] }

/-- Resolver environment with no candidates at all. -/
def resolveEnvNoCandidates : ResolveEnv :=
  { resolveEnvAmbiguous with mappingCandidates := .ok [] }

/-- The scored form of `ambRawCandidateA` under `halfNameOracle`
(confidence `round4(0.5 × 0.78) = 0.39`, no distance, no region),
written with the exact arithmetic expressions the scoring loop
produces. -/
def ambScoredA : NaverScoredCandidate :=
  { naver_place_id := "111", matched_name := "가게"
    confidence := roundQ4 (max 0 (min 1 ((1 : ℚ)/2 * 0.78 + 0 * 0.22)))
    distance_m := none
    name_score := roundQ4 ((1 : ℚ)/2)
    region_score := roundQ4 0
    distance_score := roundQ4 0
    x := none, y := none, source_url := none, snippet := none }

/-- The scored form of `ambRawCandidateB`. -/
def ambScoredB : NaverScoredCandidate :=
  { ambScoredA with naver_place_id := "222" }

/-- A cache state fresh out of `__init__` with a configured Redis URL. -/
def cacheStateRedisUp : CacheState :=
  { redisEnabled := true, hasRedisClient := true, memoryCache := [] }

theorem clampUnit_nonneg (v : ℝ) : 0 ≤ clampUnit v := by
  unfold clampUnit
  split
  · exact le_refl 0
  · split
    · exact zero_le_one
    · linarith [not_lt.mp (by assumption : ¬ v < 0)]

theorem clampUnit_le_one (v : ℝ) : clampUnit v ≤ 1 := by
  unfold clampUnit
  split
  · exact zero_le_one
  · split
    · exact le_refl 1
    · exact not_lt.mp (by assumption : ¬ v > 1)

theorem clampUnit_eq_self {v : ℝ} (h0 : 0 ≤ v) (h1 : v ≤ 1) : clampUnit v = v := by
  unfold clampUnit
  rw [if_neg (not_lt.mpr h0), if_neg (not_lt.mpr h1)]

theorem memoryGetPart_shape (st : CacheState) (key : String) (now : ℚ) :
    (memoryGetPart st key now).2.1 = CacheBackendUsed.memory ∧
    (memoryGetPart st key now).2.2.redisEnabled = st.redisEnabled := by
  unfold memoryGetPart
  rcases memoryLookup st.memoryCache key with _ | ⟨expiresAt, payload⟩
  · exact ⟨rfl, rfl⟩
  · dsimp only
    split
    · exact ⟨rfl, rfl⟩
    · exact ⟨rfl, rfl⟩

theorem cacheStep_disabled (st : CacheState) (op : CacheOp)
    (h : st.redisEnabled = false) :
    (cacheStep st op).1 = CacheBackendUsed.memory ∧
    (cacheStep st op).2.redisEnabled = false := by
  cases op with
  | get key now r =>
    simp only [cacheStep, getCachedResponseStep]
    rw [if_neg (by simp [h])]
    have hm := memoryGetPart_shape st key now
    exact ⟨hm.1, h ▸ hm.2⟩
  | set key payload now ttl r =>
    simp only [cacheStep, setCachedResponseStep]
    rw [if_neg (by simp [h])]
    exact ⟨rfl, h⟩

theorem cacheRun_disabled (ops : List CacheOp) :
    ∀ st : CacheState, st.redisEnabled = false →
      (∀ b ∈ (cacheRun st ops).1, b = CacheBackendUsed.memory) ∧
      (cacheRun st ops).2.redisEnabled = false := by
  induction ops with
  | nil => intro st h; exact ⟨by intro b hb; simp [cacheRun] at hb, h⟩
  | cons op rest ih =>
    intro st h
    have hs := cacheStep_disabled st op h
    have hr := ih (cacheStep st op).2 hs.2
    refine ⟨?_, ?_⟩
    · intro b hb
      simp only [cacheRun, List.mem_cons] at hb
      rcases hb with hb | hb
      · exact hb ▸ hs.1
      · exact hr.1 b hb
    · simpa [cacheRun] using hr.2

theorem cacheStep_fail (st : CacheState) (op : CacheOp)
    (hfail : redisCallFails st op) :
    (cacheStep st op).1 = CacheBackendUsed.memory ∧
    (cacheStep st op).2.redisEnabled = false := by
  cases op with
  | get key now r =>
    obtain ⟨h1, h2, h3⟩ := hfail
    subst h3
    simp only [cacheStep, getCachedResponseStep]
    rw [if_pos ⟨h1, h2⟩]
    have hm := memoryGetPart_shape { st with redisEnabled := false } key now
    exact ⟨hm.1, hm.2⟩
  | set key payload now ttl r =>
    obtain ⟨h1, h2, h3⟩ := hfail
    subst h3
    simp only [cacheStep, setCachedResponseStep]
    rw [if_pos ⟨h1, h2⟩]
    exact ⟨rfl, rfl⟩

/-- C9: `ResponseCache`'s backend selection is a one-way circuit
breaker: as soon as a Redis (shared backend) get or set actually
attempted in the current state fails, that call is served by the
in-process fallback, the selector is demoted, and every later get/set
in the same service instance is served by the fallback with the
selector never returning to the shared backend. -/
theorem cache_selector_one_way_circuit_breaker (st : CacheState) (op : CacheOp)
    (ops : List CacheOp) (hfail : redisCallFails st op) :
    (cacheStep st op).1 = CacheBackendUsed.memory ∧
    (cacheStep st op).2.redisEnabled = false ∧
    (∀ b ∈ (cacheRun (cacheStep st op).2 ops).1, b = CacheBackendUsed.memory) ∧
    (cacheRun (cacheStep st op).2 ops).2.redisEnabled = false := by
  have hs := cacheStep_fail st op hfail
  have hr := cacheRun_disabled ops (cacheStep st op).2 hs.2
  exact ⟨hs.1, hs.2, hr.1, hr.2⟩

/-- Witness for C9: a fresh instance whose first Redis get fails is
demoted, and the following get and set both run on the in-process
store. -/
theorem cache_selector_one_way_circuit_breaker_witness :
    (cacheStep cacheStateRedisUp (CacheOp.get "k" 0 RedisCallOutcome.fail)).1 =
      CacheBackendUsed.memory ∧
    (cacheStep cacheStateRedisUp (CacheOp.get "k" 0 RedisCallOutcome.fail)).2.redisEnabled
      = false ∧
    (∀ b ∈ (cacheRun (cacheStep cacheStateRedisUp
        (CacheOp.get "k" 0 RedisCallOutcome.fail)).2
        [CacheOp.set "k" "payload" 1 900 (RedisCallOutcome.ok none),
         CacheOp.get "k" 2 (RedisCallOutcome.ok (some "payload"))]).1,
      b = CacheBackendUsed.memory) ∧
    (cacheRun (cacheStep cacheStateRedisUp
        (CacheOp.get "k" 0 RedisCallOutcome.fail)).2
        [CacheOp.set "k" "payload" 1 900 (RedisCallOutcome.ok none),
         CacheOp.get "k" 2 (RedisCallOutcome.ok (some "payload"))]).2.redisEnabled = false :=
  cache_selector_one_way_circuit_breaker cacheStateRedisUp
    (CacheOp.get "k" 0 RedisCallOutcome.fail)
    [CacheOp.set "k" "payload" 1 900 (RedisCallOutcome.ok none),
     CacheOp.get "k" 2 (RedisCallOutcome.ok (some "payload"))]
    ⟨rfl, rfl, rfl⟩

theorem reviewExpandLoop_stalled (counts : ℕ → ℕ) (clickOk : ℕ → Bool) (base : ℕ)
    (hcounts : ∀ i, counts i ≤ base) (hclick : ∀ i, clickOk i = true) :
    ∀ (remaining idx : ℕ) (g : NoGrowthGuard), g.lastCount = base → g.streak < g.limit →
      reviewExpandLoop counts clickOk idx remaining g = min (g.limit - g.streak) remaining := by
  intro remaining
  induction remaining with
  | zero => intro idx g _ _; simp [reviewExpandLoop]
  | succ rem ih =>
    intro idx g hlast hstreak
    have hobs : g.observe (counts idx) =
        (decide (g.limit ≤ g.streak + 1), { g with streak := g.streak + 1 }) := by
      unfold NoGrowthGuard.observe
      rw [if_neg (by rw [hlast]; exact not_lt.mpr (hcounts idx))]
    simp only [reviewExpandLoop, hclick idx, if_true, hobs]
    by_cases hstop : g.limit ≤ g.streak + 1
    · rw [decide_eq_true hstop, if_pos rfl]
      omega
    · rw [decide_eq_false hstop, if_neg (by simp)]
      rw [ih (idx + 1) { g with streak := g.streak + 1 } hlast (by dsimp only; omega)]
      dsimp only
      omega

/-- C8 (counterexample to the claim as stated): with stall limit `N = 2`
(and ceiling 20, initial count 5) on a page that never grows and always
lets the click succeed, exactly 2 expansion iterations are attempted —
not `N + 1 = 3` as the claim asserts. -/
theorem crawler_stall_counterexample :
    crawlReviewsIterations 20 2 5 (fun _ => 5) (fun _ => true) = 2 ∧
    crawlReviewsIterations 20 2 5 (fun _ => 5) (fun _ => true) ≠ 2 + 1 := by
  constructor
  · rfl
  · intro h
    rw [(rfl : crawlReviewsIterations 20 2 5 (fun _ => 5) (fun _ => true) = 2)] at h
    exact absurd h (by decide)

/-- C8 (amended): with stall limit `N ≥ 1` below the click ceiling, on a
page whose deduplicated total never exceeds the initial baseline and
whose "load more" click always succeeds, `_crawl_reviews_with_page`
attempts exactly `N` expansion iterations before stopping. -/
theorem crawler_stall_stops_after_limit (maxClicks n baseline : ℕ)
    (counts : ℕ → ℕ) (clickOk : ℕ → Bool)
    (hn : 1 ≤ n) (hmax : n ≤ maxClicks)
    (hcounts : ∀ i, counts i ≤ baseline) (hclick : ∀ i, clickOk i = true) :
    crawlReviewsIterations maxClicks n baseline counts clickOk = n := by
  unfold crawlReviewsIterations
  rw [reviewExpandLoop_stalled counts clickOk baseline hcounts hclick maxClicks 1
    (NoGrowthGuard.init n baseline) rfl (by unfold NoGrowthGuard.init; dsimp only; omega)]
  unfold NoGrowthGuard.init
  dsimp only
  omega

/-- Witness for the amended C8 theorem at `N = 3`, ceiling 20,
baseline 5. -/
theorem crawler_stall_stops_after_limit_witness :
    crawlReviewsIterations 20 3 5 (fun _ => 5) (fun _ => true) = 3 :=
  crawler_stall_stops_after_limit 20 3 5 (fun _ => 5) (fun _ => true)
    (by decide) (by decide) (fun _ => le_refl 5) (fun _ => rfl)

/-- C7 (amended: with the code's reason spelling
`missing_place_name`): `resolve_naver_place_mapping` is total — every
input yields either a `MAPPED` payload with no reason, or a `SKIPPED`
payload whose machine-readable reason is one of `missing_place_name`,
`no_candidates`, `ambiguous_candidates`, `low_confidence`,
`search_error`; and `_select_best_mapping_candidate` rejects the match
(returns no best candidate) whenever the top two scored candidates are
within the `0.08` confidence gap, neither carries a distance signal,
and neither has region-token overlap reaching `0.34`. -/
theorem resolver_structured_failure_and_ambiguity :
    (∀ (env : ResolveEnv) (kakaoPlaceId : String) (placeName : Option String)
        (x y : Option ℚ),
      ((resolveNaverPlaceMapping env kakaoPlaceId placeName x y).status = "MAPPED" ∧
       (resolveNaverPlaceMapping env kakaoPlaceId placeName x y).reason = none) ∨
      ((resolveNaverPlaceMapping env kakaoPlaceId placeName x y).status = "SKIPPED" ∧
       (resolveNaverPlaceMapping env kakaoPlaceId placeName x y).reason ∈
         [some "missing_place_name", some "no_candidates", some "ambiguous_candidates",
          some "low_confidence", some "search_error"])) ∧
    (∀ (oracle : SimilarityOracle) (placeName : String)
        (candidates : List NaverRawCandidate) (kakaoX kakaoY : Option ℚ)
        (kakaoAddress : Option String) (best second : NaverScoredCandidate)
        (rest : List NaverScoredCandidate),
      (selectBestMappingCandidate oracle placeName candidates kakaoX kakaoY
        kakaoAddress).2 = best :: second :: rest →
      best.confidence - second.confidence < 0.08 →
      best.distance_m = none → second.distance_m = none →
      max best.region_score second.region_score < 0.34 →
      (selectBestMappingCandidate oracle placeName candidates kakaoX kakaoY
        kakaoAddress).1 = none) := by
  constructor
  · intro env kakaoPlaceId placeName x y
    unfold resolveNaverPlaceMapping
    split
    · right; exact ⟨rfl, by simp⟩
    · rcases env.kakaoContext with e | ctx
      · right; exact ⟨rfl, by simp⟩
      · rcases env.browserSession with e | u
        · right; exact ⟨rfl, by simp⟩
        · rcases env.mappingCandidates with e | candidates
          · right; exact ⟨rfl, by simp⟩
          · dsimp only
            rcases (resolveSelection env placeName x y ctx candidates).1 with _ | best
            · right
              refine ⟨rfl, ?_⟩
              by_cases hemp : (resolveSelection env placeName x y ctx candidates).2.isEmpty
              · rw [if_pos hemp]; simp
              · rw [if_neg hemp]; simp
            · dsimp only
              by_cases hconf : best.confidence < mapMinConfidence
              · rw [if_pos hconf]
                right
                exact ⟨rfl, by simp⟩
              · rw [if_neg hconf]
                left
                exact ⟨rfl, rfl⟩
  · intro oracle placeName candidates kakaoX kakaoY kakaoAddress best second rest
      hsort hgap hd1 hd2 hregion
    unfold selectBestMappingCandidate at hsort ⊢
    generalize hsc : scoreMappingCandidates oracle placeName candidates kakaoX kakaoY
      kakaoAddress = sc at hsort ⊢
    by_cases hemp : sc.isEmpty
    · rw [if_pos hemp] at hsort
      simp at hsort
    · rw [if_neg hemp] at hsort ⊢
      generalize hms : sc.mergeSort mappingSortLe = sortedList at hsort ⊢
      rcases sortedList with _ | ⟨b1, _ | ⟨c2, r⟩⟩
      · dsimp only at hsort
        simp at hsort
      · dsimp only at hsort
        simp at hsort
      · dsimp only at hsort ⊢
        have hlist : b1 :: c2 :: r = best :: second :: rest := by
          split at hsort <;> simpa using hsort
        obtain ⟨hb, hc, hr⟩ : b1 = best ∧ c2 = second ∧ r = rest := by
          injection hlist with h1 h2
          injection h2 with h2 h3
          exact ⟨h1, h2, h3⟩
        subst hb; subst hc; subst hr
        rw [if_pos ⟨hgap, ⟨by simp [hd1], by simp [hd2]⟩, hregion⟩]

/-- C7 (counterexample to the claim as stated): a resolution with a
missing place name returns machine-readable reason
`"missing_place_name"`, which is not in the claim's reason vocabulary
(the claim spells it `missing_name`). -/
theorem resolver_reason_set_counterexample :
    (resolveNaverPlaceMapping resolveEnvNoCandidates "kakao-1" none none none).reason =
      some "missing_place_name" ∧
    some "missing_place_name" ∉
      ([some "missing_name", some "no_candidates", some "ambiguous_candidates",
        some "low_confidence", some "search_error"] : List (Option String)) := by
  exact ⟨rfl, by decide⟩

theorem ambSortLe : mappingSortLe ambScoredA ambScoredB = true := by
  simp only [mappingSortLe, Bool.or_eq_true, Bool.and_eq_true, decide_eq_true_eq,
    Bool.not_eq_true', decide_eq_false_iff_not]
  refine Or.inr ⟨rfl, Or.inr ⟨rfl, Or.inr ⟨rfl, Or.inr ⟨rfl, ?_⟩⟩⟩⟩
  rw [String.lt_iff_toList_lt]
  decide

theorem ambSelectionEval :
    (selectBestMappingCandidate halfNameOracle "공방"
      [ambRawCandidateA, ambRawCandidateB] none none none).2 =
      ambScoredA :: ambScoredB :: [] := by
  have hscore : scoreMappingCandidates halfNameOracle "공방"
      [ambRawCandidateA, ambRawCandidateB] none none none = [ambScoredA, ambScoredB] := rfl
  have hsorted : List.mergeSort [ambScoredA, ambScoredB] mappingSortLe =
      [ambScoredA, ambScoredB] :=
    List.mergeSort_of_sorted (by simp [ambSortLe])
  unfold selectBestMappingCandidate
  rw [hscore, hsorted]
  rw [if_neg (by simp)]
  dsimp only
  split <;> rfl

theorem ambGapSmall : ambScoredA.confidence - ambScoredB.confidence < 0.08 := by
  rw [show ambScoredB.confidence = ambScoredA.confidence from rfl, sub_self]
  norm_num

theorem ambRegionWeak : max ambScoredA.region_score ambScoredB.region_score < 0.34 := by
  rw [show ambScoredB.region_score = ambScoredA.region_score from rfl, max_self]
  show roundQ4 0 < 0.34
  rw [roundQ4]
  norm_num

/-- Witness for the amended C7 theorem: the structured-result
disjunction instantiated at the ambiguous two-candidate environment,
and the ambiguity rejection instantiated on its two tied scored
candidates. -/
theorem resolver_structured_failure_witness :
    (((resolveNaverPlaceMapping resolveEnvAmbiguous "kakao-1" (some "공방") none none).status
        = "MAPPED" ∧
      (resolveNaverPlaceMapping resolveEnvAmbiguous "kakao-1" (some "공방") none none).reason
        = none) ∨
     ((resolveNaverPlaceMapping resolveEnvAmbiguous "kakao-1" (some "공방") none none).status
        = "SKIPPED" ∧
      (resolveNaverPlaceMapping resolveEnvAmbiguous "kakao-1" (some "공방") none none).reason ∈
        [some "missing_place_name", some "no_candidates", some "ambiguous_candidates",
         some "low_confidence", some "search_error"])) ∧
    (selectBestMappingCandidate halfNameOracle "공방"
      [ambRawCandidateA, ambRawCandidateB] none none none).1 = none :=
  ⟨resolver_structured_failure_and_ambiguity.1 resolveEnvAmbiguous "kakao-1" (some "공방")
      none none,
   resolver_structured_failure_and_ambiguity.2 halfNameOracle "공방"
      [ambRawCandidateA, ambRawCandidateB] none none none ambScoredA ambScoredB []
      ambSelectionEval ambGapSmall rfl rfl ambRegionWeak⟩

theorem rankHotplaces_eq (hotplaces : List MidpointHotplace)
    (request : MidpointHotplaceRequest) :
    rankHotplaces hotplaces request =
      (hotplaces.map (rankHotplaceUpdate request (normalizeWeatherKey request.weather_key)
        (resolveRankingWeights (normalizeWeatherKey request.weather_key)))).mergeSort
        rankSortLe := by
  cases hotplaces with
  | nil => simp [rankHotplaces]
  | cons h t => rfl

theorem rankHotplaces_perm (hotplaces : List MidpointHotplace)
    (request : MidpointHotplaceRequest) :
    (rankHotplaces hotplaces request).Perm
      (hotplaces.map (rankHotplaceUpdate request (normalizeWeatherKey request.weather_key)
        (resolveRankingWeights (normalizeWeatherKey request.weather_key)))) := by
  rw [rankHotplaces_eq]
  exact List.mergeSort_perm _ _

theorem rankHotplaceUpdate_frame (request : MidpointHotplaceRequest)
    (wk : Option String) (w : RankingWeights) (h : MidpointHotplace) :
    OnlyRankingFieldsDiffer h (rankHotplaceUpdate request wk w h) :=
  ⟨rfl, rfl, rfl, rfl, rfl, rfl, rfl, rfl, rfl, rfl, rfl, rfl, rfl, rfl, rfl, rfl, rfl, rfl⟩

theorem floor_half_eq_zero : (⌊(1 : ℝ) / 2⌋ : ℤ) = 0 := by
  apply Int.floor_eq_zero_iff.mpr
  constructor <;> norm_num

theorem roundDecimals4_bounds {v : ℝ} (h0 : 0 ≤ v) (h1 : v ≤ 1) :
    0 ≤ roundDecimals4 v ∧ roundDecimals4 v ≤ 1 := by
  unfold roundDecimals4
  constructor
  · apply div_nonneg _ (by norm_num)
    have hr : (0 : ℤ) ≤ round (v * 10000) := by
      rw [round_eq]
      apply Int.floor_nonneg.mpr
      nlinarith
    exact_mod_cast hr
  · rw [div_le_one (by norm_num)]
    have hr : round (v * 10000) ≤ 10000 := by
      rw [round_eq]
      have hle : v * 10000 + 1 / 2 ≤ (10000 : ℝ) + 1 / 2 := by nlinarith
      calc ⌊v * 10000 + 1 / 2⌋ ≤ ⌊(10000 : ℝ) + 1 / 2⌋ := Int.floor_le_floor hle
        _ = 10000 := by
          rw [add_comm, show ((10000 : ℝ)) = ((10000 : ℤ) : ℝ) by norm_num,
            Int.floor_add_int, floor_half_eq_zero]
          norm_num
    exact_mod_cast hr

theorem rankHotplaceUpdate_score (request : MidpointHotplaceRequest)
    (wk : Option String) (w : RankingWeights) (h : MidpointHotplace) :
    ∃ s, (rankHotplaceUpdate request wk w h).ranking_score = some s ∧
      0 ≤ s ∧ s ≤ 1 ∧ ∃ n : ℤ, s = (n : ℝ) / 10000 := by
  refine ⟨roundDecimals4 (clampUnit (w.distance * (calculateDistanceScore h request).1 +
    w.rating * (calculateRatingScoreAndConfidence h).1 +
    w.weather * (calculateWeatherSuitabilityScore wk
      (mapKeywordToPlayCategory (some h.source_keyword) h.category_name)) +
    w.confidence * (calculateRatingScoreAndConfidence h).2.1)), rfl, ?_, ?_, ?_⟩
  · exact (roundDecimals4_bounds (clampUnit_nonneg _) (clampUnit_le_one _)).1
  · exact (roundDecimals4_bounds (clampUnit_nonneg _) (clampUnit_le_one _)).2
  · exact ⟨round (clampUnit (w.distance * (calculateDistanceScore h request).1 +
      w.rating * (calculateRatingScoreAndConfidence h).1 +
      w.weather * (calculateWeatherSuitabilityScore wk
        (mapKeywordToPlayCategory (some h.source_keyword) h.category_name)) +
      w.confidence * (calculateRatingScoreAndConfidence h).2.1) * 10000), rfl⟩

theorem ifTakeShape (l : List String) (x : String) :
    (if l = [] then [x] else l.take 3) ≠ [] ∧
    (if l = [] then [x] else l.take 3).length ≤ 3 := by
  by_cases hl : l = []
  · rw [if_pos hl]
    exact ⟨by simp, by simp⟩
  · rw [if_neg hl]
    exact ⟨by simpa [List.take_eq_nil_iff] using hl, by simp [List.length_take]⟩

theorem buildRankingReasons_shape (h : MidpointHotplace) (wk : Option String)
    (ac : String) (ws : ℝ) (avg : Option ℝ) :
    buildRankingReasons h wk ac ws avg ≠ [] ∧
    (buildRankingReasons h wk ac ws avg).length ≤ 3 :=
  ifTakeShape _ _

/-- C10: for every candidate list and request, `_rank_hotplaces` returns
a permutation of its input in which each candidate differs from its
input counterpart only in `ranking_score` — always set, a 4-decimal
value in `[0, 1]` — and `ranking_reasons` — always a non-empty list of
at most 3 entries; every other field is unchanged. -/
theorem rank_hotplaces_is_scored_permutation :
    ∀ (hotplaces : List MidpointHotplace) (request : MidpointHotplaceRequest),
      (rankHotplaces hotplaces request).Perm
        (hotplaces.map (rankHotplaceUpdate request (normalizeWeatherKey request.weather_key)
          (resolveRankingWeights (normalizeWeatherKey request.weather_key)))) ∧
      ∀ h ∈ hotplaces,
        OnlyRankingFieldsDiffer h
          (rankHotplaceUpdate request (normalizeWeatherKey request.weather_key)
            (resolveRankingWeights (normalizeWeatherKey request.weather_key)) h) ∧
        (∃ s, (rankHotplaceUpdate request (normalizeWeatherKey request.weather_key)
            (resolveRankingWeights (normalizeWeatherKey request.weather_key)) h).ranking_score
            = some s ∧ 0 ≤ s ∧ s ≤ 1 ∧ ∃ n : ℤ, s = (n : ℝ) / 10000) ∧
        (rankHotplaceUpdate request (normalizeWeatherKey request.weather_key)
          (resolveRankingWeights (normalizeWeatherKey request.weather_key)) h).ranking_reasons
          ≠ [] ∧
        (rankHotplaceUpdate request (normalizeWeatherKey request.weather_key)
          (resolveRankingWeights (normalizeWeatherKey request.weather_key)) h).ranking_reasons.length
          ≤ 3 := by
  intro hotplaces request
  refine ⟨rankHotplaces_perm hotplaces request, ?_⟩
  intro h _
  exact ⟨rankHotplaceUpdate_frame _ _ _ h, rankHotplaceUpdate_score _ _ _ h,
    (buildRankingReasons_shape h _ _ _ _).1, (buildRankingReasons_shape h _ _ _ _).2⟩

/-- Witness for C10 on the singleton batch containing the distance-test
fixture. -/
theorem rank_hotplaces_is_scored_permutation_witness :
    (rankHotplaces [positiveRatedHotplace] c6Request).Perm
      ([positiveRatedHotplace].map (rankHotplaceUpdate c6Request
        (normalizeWeatherKey c6Request.weather_key)
        (resolveRankingWeights (normalizeWeatherKey c6Request.weather_key)))) ∧
    OnlyRankingFieldsDiffer positiveRatedHotplace
      (rankHotplaceUpdate c6Request (normalizeWeatherKey c6Request.weather_key)
        (resolveRankingWeights (normalizeWeatherKey c6Request.weather_key))
        positiveRatedHotplace) :=
  ⟨(rank_hotplaces_is_scored_permutation [positiveRatedHotplace] c6Request).1,
   ((rank_hotplaces_is_scored_permutation [positiveRatedHotplace] c6Request).2
     positiveRatedHotplace (List.mem_cons_self _ _)).1⟩

/-- C1 (the code evaluated at the failing input of the repository's own
test `test_rank_hotplaces_filters_zero_rated_places_when_other_rated_places_exist`):
ranking the batch `[rating=0.0 (count 120), rating=4.1 (count 40)]`
returns BOTH candidates — the zero-rated one is ranked, not excluded —
while the test (and the spec's zero-rating exclusion rule) require the
output to contain only the positively rated candidate. -/
theorem zero_rating_not_excluded_at_failing_input :
    (rankHotplaces [zeroRatedHotplace, positiveRatedHotplace] zeroRatingRequest).length = 2 ∧
    rankHotplaceUpdate zeroRatingRequest (normalizeWeatherKey zeroRatingRequest.weather_key)
      (resolveRankingWeights (normalizeWeatherKey zeroRatingRequest.weather_key))
      zeroRatedHotplace
      ∈ rankHotplaces [zeroRatedHotplace, positiveRatedHotplace] zeroRatingRequest ∧
    (rankHotplaceUpdate zeroRatingRequest (normalizeWeatherKey zeroRatingRequest.weather_key)
      (resolveRankingWeights (normalizeWeatherKey zeroRatingRequest.weather_key))
      zeroRatedHotplace).naver_rating = some 0 := by
  have hperm := rankHotplaces_perm [zeroRatedHotplace, positiveRatedHotplace] zeroRatingRequest
  refine ⟨?_, ?_, rfl⟩
  · rw [hperm.length_eq]
    simp
  · exact hperm.mem_iff.mpr (List.mem_map_of_mem _ (List.mem_cons_self _ _))

theorem pyAtan2_nonneg {y x : ℝ} (hy : 0 ≤ y) (hx : 0 ≤ x) : 0 ≤ pyAtan2 y x := by
  unfold pyAtan2
  rcases lt_or_eq_of_le hx with hx0 | hx0
  · rw [if_pos hx0]
    have h := Real.arctan_strictMono.monotone (div_nonneg hy hx)
    rwa [Real.arctan_zero] at h
  · rw [if_neg (by rw [← hx0]; exact lt_irrefl 0), if_neg (by rw [← hx0]; exact lt_irrefl 0)]
    by_cases hy0 : 0 < y
    · rw [if_pos hy0]
      linarith [Real.pi_pos]
    · rw [if_neg hy0, if_neg (not_lt.mpr hy)]

theorem haversineDistanceKm_nonneg (a b c d : ℝ) : 0 ≤ haversineDistanceKm a b c d := by
  unfold haversineDistanceKm
  apply mul_nonneg
  · norm_num [earthRadiusKm]
  · apply mul_nonneg (by norm_num)
    exact pyAtan2_nonneg (Real.sqrt_nonneg _) (Real.sqrt_nonneg _)

theorem participantDistancesKm_nonneg (h : MidpointHotplace)
    (request : MidpointHotplaceRequest) :
    ∀ d ∈ participantDistancesKm h request, 0 ≤ d := by
  intro d hd
  unfold participantDistancesKm at hd
  obtain ⟨p, _, rfl⟩ := List.mem_map.mp hd
  exact haversineDistanceKm_nonneg _ _ _ _

theorem meanDistanceKm_nonneg (h : MidpointHotplace)
    (request : MidpointHotplaceRequest) : 0 ≤ meanDistanceKm h request := by
  unfold meanDistanceKm
  exact div_nonneg (List.sum_nonneg (participantDistancesKm_nonneg h request))
    (Nat.cast_nonneg _)

theorem stdDistanceKm_nonneg (h : MidpointHotplace)
    (request : MidpointHotplaceRequest) : 0 ≤ stdDistanceKm h request := by
  unfold stdDistanceKm
  split
  · exact Real.sqrt_nonneg _
  · exact le_refl 0

theorem distanceDecayKm_pos : (0 : ℝ) < distanceDecayKm := by norm_num [distanceDecayKm]

theorem distanceFairnessDecayKm_pos : (0 : ℝ) < distanceFairnessDecayKm := by
  norm_num [distanceFairnessDecayKm]

theorem distanceFairnessScore_eq {m s : ℝ} (hm : 0 ≤ m) (hs : 0 ≤ s) :
    distanceFairnessScore m s =
      Real.exp (-m / distanceDecayKm) * Real.exp (-s / distanceFairnessDecayKm) := by
  unfold distanceFairnessScore
  apply clampUnit_eq_self
  · positivity
  · have h1 : Real.exp (-m / distanceDecayKm) ≤ 1 := by
      rw [Real.exp_le_one_iff]
      exact div_nonpos_of_nonpos_of_nonneg (neg_nonpos.mpr hm) distanceDecayKm_pos.le
    have h2 : Real.exp (-s / distanceFairnessDecayKm) ≤ 1 := by
      rw [Real.exp_le_one_iff]
      exact div_nonpos_of_nonpos_of_nonneg (neg_nonpos.mpr hs) distanceFairnessDecayKm_pos.le
    nlinarith [Real.exp_pos (-m / distanceDecayKm), Real.exp_pos (-s / distanceFairnessDecayKm)]

theorem calculateDistanceScore_valid_eq (h : MidpointHotplace)
    (request : MidpointHotplaceRequest)
    (hin : -90 ≤ h.y ∧ h.y ≤ 90 ∧ -180 ≤ h.x ∧ h.x ≤ 180)
    (horig : ¬(|h.x| < 1e-9 ∧ |h.y| < 1e-9))
    (hne : request.participants ≠ []) :
    (calculateDistanceScore h request).1 =
      Real.exp (-(meanDistanceKm h request) / distanceDecayKm) *
      Real.exp (-(stdDistanceKm h request) / distanceFairnessDecayKm) := by
  unfold calculateDistanceScore
  rw [if_neg (not_not_intro hin), if_neg horig,
    if_neg (by unfold participantDistancesKm; simpa using hne)]
  exact distanceFairnessScore_eq (meanDistanceKm_nonneg h request)
    (stdDistanceKm_nonneg h request)

/-- C6: for a candidate with valid, non-origin coordinates and a
non-empty participant list, the distance-fairness component equals
`exp(-mean/D_decay) · exp(-stddev/D_fair)` over the haversine distances
to all participants; the clamped fairness shape strictly decreases as
the mean grows with stddev 0, and at equal mean a lower stddev scores
strictly higher; out-of-range coordinates and the `(0,0)` origin
sentinel are scored neutrally (0.5). -/
theorem distance_fairness_score_characterization :
    (∀ (h : MidpointHotplace) (request : MidpointHotplaceRequest),
      -90 ≤ h.y ∧ h.y ≤ 90 ∧ -180 ≤ h.x ∧ h.x ≤ 180 →
      ¬(|h.x| < 1e-9 ∧ |h.y| < 1e-9) →
      request.participants ≠ [] →
      (calculateDistanceScore h request).1 =
        Real.exp (-(meanDistanceKm h request) / distanceDecayKm) *
        Real.exp (-(stdDistanceKm h request) / distanceFairnessDecayKm)) ∧
    (∀ m1 m2 : ℝ, 0 ≤ m1 → m1 < m2 →
      distanceFairnessScore m2 0 < distanceFairnessScore m1 0) ∧
    (∀ m s1 s2 : ℝ, 0 ≤ m → 0 ≤ s1 → s1 < s2 →
      distanceFairnessScore m s2 < distanceFairnessScore m s1) ∧
    (∀ (h : MidpointHotplace) (request : MidpointHotplaceRequest),
      ¬(-90 ≤ h.y ∧ h.y ≤ 90 ∧ -180 ≤ h.x ∧ h.x ≤ 180) →
      (calculateDistanceScore h request).1 = neutralComponentScore) ∧
    (∀ (h : MidpointHotplace) (request : MidpointHotplaceRequest),
      |h.x| < 1e-9 ∧ |h.y| < 1e-9 →
      (calculateDistanceScore h request).1 = neutralComponentScore) := by
  refine ⟨calculateDistanceScore_valid_eq, ?_, ?_, ?_, ?_⟩
  · intro m1 m2 h0 h
    rw [distanceFairnessScore_eq (le_trans h0 h.le) le_rfl,
      distanceFairnessScore_eq h0 le_rfl]
    apply mul_lt_mul_of_pos_right _ (Real.exp_pos _)
    exact Real.exp_lt_exp.mpr ((div_lt_div_iff_of_pos_right distanceDecayKm_pos).mpr (neg_lt_neg h))
  · intro m s1 s2 hm h0 h
    rw [distanceFairnessScore_eq hm (le_trans h0 h.le), distanceFairnessScore_eq hm h0]
    apply mul_lt_mul_of_pos_left _ (Real.exp_pos _)
    exact Real.exp_lt_exp.mpr
      ((div_lt_div_iff_of_pos_right distanceFairnessDecayKm_pos).mpr (neg_lt_neg h))
  · intro h request hout
    unfold calculateDistanceScore
    rw [if_pos hout]
  · intro h request horig
    have hin : -90 ≤ h.y ∧ h.y ≤ 90 ∧ -180 ≤ h.x ∧ h.x ≤ 180 := by
      obtain ⟨hx, hy⟩ := horig
      have hx' := abs_lt.mp hx
      have hy' := abs_lt.mp hy
      norm_num at hx' hy' ⊢
      constructor
      · linarith [hy'.1]
      constructor
      · linarith [hy'.2]
      constructor
      · linarith [hx'.1]
      · linarith [hx'.2]
    unfold calculateDistanceScore
    rw [if_neg (not_not_intro hin), if_pos horig]

/-- Witness for C6: the valid-coordinates equality at the concrete
fixture, the strict mean decrease at `0 < 1`, and the origin
neutrality at a `(0,0)` candidate. -/
theorem distance_fairness_score_witness :
    ((calculateDistanceScore positiveRatedHotplace c6Request).1 =
      Real.exp (-(meanDistanceKm positiveRatedHotplace c6Request) / distanceDecayKm) *
      Real.exp (-(stdDistanceKm positiveRatedHotplace c6Request) /
        distanceFairnessDecayKm)) ∧
    distanceFairnessScore 1 0 < distanceFairnessScore 0 0 ∧
    (calculateDistanceScore { positiveRatedHotplace with x := 0, y := 0 } c6Request).1 =
      neutralComponentScore :=
  ⟨distance_fairness_score_characterization.1 positiveRatedHotplace c6Request
    (by norm_num [positiveRatedHotplace, zeroRatedHotplace])
    (by norm_num [positiveRatedHotplace, zeroRatedHotplace]; intro h'; rw [abs_of_nonneg (by norm_num : (0:ℝ) ≤ 75 / 2)]; norm_num)
    (by simp [c6Request, zeroRatingRequest]),
   distance_fairness_score_characterization.2.1 0 1 le_rfl zero_lt_one,
   distance_fairness_score_characterization.2.2.2.2
     { positiveRatedHotplace with x := 0, y := 0 } c6Request (by norm_num)⟩

theorem participantLocationsSorted_sorted (request : MidpointHotplaceRequest) :
    List.Sorted (· ≤ ·) (participantLocationsSorted request) := by
  unfold participantLocationsSorted
  exact List.sorted_mergeSort' _

theorem participantLocationsSorted_eq_of_perm {r1 r2 : MidpointHotplaceRequest}
    (hperm : (r1.participants.map fun p =>
        toLex (roundDecimals4 p.lat, roundDecimals4 p.lng)).Perm
      (r2.participants.map fun p =>
        toLex (roundDecimals4 p.lat, roundDecimals4 p.lng))) :
    participantLocationsSorted r1 = participantLocationsSorted r2 := by
  apply List.eq_of_perm_of_sorted _ (participantLocationsSorted_sorted r1)
    (participantLocationsSorted_sorted r2)
  unfold participantLocationsSorted
  exact ((List.mergeSort_perm _ _).trans hperm).trans (List.mergeSort_perm _ _).symm

/-- C5: the cache-key payload is a deterministic function of the
semantic request inputs — two requests whose rounded participant
coordinate multisets agree (in any order) and that agree on
`station_radius`, `place_radius`, `size` and the normalized weather key
build identical key payloads (the keyword set and the fixed
station-limit/pages policy values are constants shared by all
requests); and the key payload differs whenever the normalized weather
key differs. -/
theorem cache_key_deterministic_in_semantic_inputs :
    (∀ r1 r2 : MidpointHotplaceRequest,
      (r1.participants.map fun p =>
          toLex (roundDecimals4 p.lat, roundDecimals4 p.lng)).Perm
        (r2.participants.map fun p =>
          toLex (roundDecimals4 p.lat, roundDecimals4 p.lng)) →
      r1.station_radius = r2.station_radius →
      r1.place_radius = r2.place_radius →
      r1.size = r2.size →
      normalizeWeatherKey r1.weather_key = normalizeWeatherKey r2.weather_key →
      buildCacheKey r1 = buildCacheKey r2) ∧
    (∀ r1 r2 : MidpointHotplaceRequest,
      normalizeWeatherKey r1.weather_key ≠ normalizeWeatherKey r2.weather_key →
      buildCacheKey r1 ≠ buildCacheKey r2) := by
  constructor
  · intro r1 r2 hperm hsr hpr hsz hwk
    unfold buildCacheKey
    rw [participantLocationsSorted_eq_of_perm hperm, hsr, hpr, hsz, hwk]
  · intro r1 r2 hwk heq
    exact hwk (congrArg CacheKeyPayload.weather_key heq)

/-- Witness for C5: swapping the two participants leaves the key
payload unchanged; changing the weather key from `비` to `맑음` changes
it. -/
theorem cache_key_deterministic_witness :
    buildCacheKey c5RequestA = buildCacheKey c5RequestB ∧
    buildCacheKey c5RequestA ≠ buildCacheKey c5RequestC :=
  ⟨cache_key_deterministic_in_semantic_inputs.1 c5RequestA c5RequestB
      (List.Perm.swap _ _ _) rfl rfl rfl rfl,
   cache_key_deterministic_in_semantic_inputs.2 c5RequestA c5RequestC (by decide)⟩

theorem dedupFirstByKey_go {α : Type} (key : α → String) :
    ∀ (l acc : List α), ((acc.map key).Nodup) →
      (((l.foldl (fun acc x => if acc.any fun y => key y == key x then acc
        else acc ++ [x]) acc).map key).Nodup) ∧
      (∀ x ∈ l.foldl (fun acc x => if acc.any fun y => key y == key x then acc
          else acc ++ [x]) acc,
        x ∈ acc ∨ (l.find? (fun y => key y == key x) = some x ∧
          key x ∉ acc.map key)) := by
  intro l
  induction l with
  | nil =>
    intro acc hacc
    exact ⟨hacc, fun x hx => Or.inl hx⟩
  | cons a t ih =>
    intro acc hacc
    simp only [List.foldl_cons]
    by_cases hmem : acc.any fun y => key y == key a
    · rw [if_pos hmem]
      have hkeya : key a ∈ acc.map key := by
        obtain ⟨y, hy, hkey⟩ := List.any_eq_true.mp hmem
        exact List.mem_map.mpr ⟨y, hy, beq_iff_eq.mp hkey⟩
      have hrec := ih acc hacc
      refine ⟨hrec.1, fun x hx => ?_⟩
      rcases hrec.2 x hx with hxacc | ⟨hfind, hnotin⟩
      · exact Or.inl hxacc
      · right
        refine ⟨?_, hnotin⟩
        rw [List.find?_cons_of_neg]
        · exact hfind
        · intro hcontra
          exact hnotin (beq_iff_eq.mp hcontra ▸ hkeya)
    · rw [if_neg hmem]
      have hnotin_a : key a ∉ acc.map key := by
        intro hin
        obtain ⟨y, hy, hkey⟩ := List.mem_map.mp hin
        exact hmem (List.any_eq_true.mpr ⟨y, hy, beq_iff_eq.mpr hkey⟩)
      have hacc2 : (((acc ++ [a]).map key).Nodup) := by
        rw [List.map_append, List.nodup_append]
        refine ⟨hacc, by simp, ?_⟩
        intro b hb hb2
        simp only [List.map_cons, List.map_nil, List.mem_singleton] at hb2
        exact hnotin_a (hb2 ▸ hb)
      have hrec := ih (acc ++ [a]) hacc2
      refine ⟨hrec.1, fun x hx => ?_⟩
      rcases hrec.2 x hx with hxacc | ⟨hfind, hnotin⟩
      · rcases List.mem_append.mp hxacc with h1 | h2
        · exact Or.inl h1
        · have hxa : x = a := by simpa using h2
          subst hxa
          right
          refine ⟨?_, hnotin_a⟩
          rw [List.find?_cons_of_pos]
          exact beq_self_eq_true _
      · right
        have hnotin_acc : key x ∉ acc.map key := by
          intro hc
          exact hnotin (by rw [List.map_append]; exact List.mem_append.mpr (Or.inl hc))
        have hne_a : key a ≠ key x := by
          intro hca
          apply hnotin
          rw [List.map_append]
          exact List.mem_append.mpr (Or.inr (by simp [hca]))
        refine ⟨?_, hnotin_acc⟩
        rw [List.find?_cons_of_neg]
        · exact hfind
        · intro hcontra
          exact hne_a (beq_iff_eq.mp hcontra)

theorem dedupFirstByKey_spec {α : Type} (key : α → String) (l : List α) :
    ((dedupFirstByKey key l).map key).Nodup ∧
    ∀ x ∈ dedupFirstByKey key l, l.find? (fun y => key y == key x) = some x := by
  have hgo := dedupFirstByKey_go key l [] (by simp)
  refine ⟨hgo.1, fun x hx => ?_⟩
  rcases hgo.2 x hx with h | ⟨h, _⟩
  · simp at h
  · exact h

/-- C2: the pre-flight guard value is `1 + station_limit × keyword_count
× pages`, and whenever it exceeds the configured ceiling,
`get_midpoint_hotplaces` fails with the HTTP 400 budget error and
produces no effects at all — in particular the cache lookup is never
performed and zero external directory calls are issued (the event trace
is empty). -/
theorem budget_guard_blocks_before_any_effect (env : AggEnv)
    (request : MidpointHotplaceRequest)
    (hguard : calculateExpectedKakaoCalls fixedStationLimit
      (predefinedPlayKeywords.length : ℤ) fixedPages >
      env.config.maxKakaoCallsPerRequest) :
    calculateExpectedKakaoCalls fixedStationLimit
      (predefinedPlayKeywords.length : ℤ) fixedPages =
      1 + fixedStationLimit * (predefinedPlayKeywords.length : ℤ) * fixedPages ∧
    (getMidpointHotplaces env request).1 =
      .error (budgetGuardError (calculateExpectedKakaoCalls fixedStationLimit
        (predefinedPlayKeywords.length : ℤ) fixedPages)
        env.config.maxKakaoCallsPerRequest (predefinedPlayKeywords.length : ℤ)) ∧
    (budgetGuardError (calculateExpectedKakaoCalls fixedStationLimit
      (predefinedPlayKeywords.length : ℤ) fixedPages)
      env.config.maxKakaoCallsPerRequest
      (predefinedPlayKeywords.length : ℤ)).statusCode = 400 ∧
    (getMidpointHotplaces env request).2 = [] := by
  refine ⟨rfl, ?_, rfl, ?_⟩
  · simp only [getMidpointHotplaces]
    rw [if_pos hguard]
  · simp only [getMidpointHotplaces]
    rw [if_pos hguard]

/-- Witness for C2 at the repository guard test's configuration
(budget lowered to 50 while `1 + 1 × 57 × 1 = 58`). -/
theorem budget_guard_blocks_witness :
    (getMidpointHotplaces envBudgetExceeded sampleRequest).1 =
      .error (budgetGuardError (calculateExpectedKakaoCalls fixedStationLimit
        (predefinedPlayKeywords.length : ℤ) fixedPages)
        envBudgetExceeded.config.maxKakaoCallsPerRequest
        (predefinedPlayKeywords.length : ℤ)) ∧
    (getMidpointHotplaces envBudgetExceeded sampleRequest).2 = [] :=
  ⟨(budget_guard_blocks_before_any_effect envBudgetExceeded sampleRequest
      (by decide)).2.1,
   (budget_guard_blocks_before_any_effect envBudgetExceeded sampleRequest
      (by decide)).2.2.2⟩

/-- C3: on a cache miss in which at least one keyword fan-out task
fails (the first failing task carrying error `e`), the whole
aggregation fails with the all-or-nothing re-wrap of `e` — no partial
candidate list is returned — while the anchor (station) search has
executed exactly once and no cache write happens; all keyword calls
still appear in the trace because gather's siblings drain. -/
theorem fanout_all_or_nothing (env : AggEnv) (request : MidpointHotplaceRequest)
    (stationDocs : List KakaoPlaceDoc) (e : HttpError)
    (hguard : ¬(calculateExpectedKakaoCalls fixedStationLimit
      (predefinedPlayKeywords.length : ℤ) fixedPages >
      env.config.maxKakaoCallsPerRequest))
    (hcache : env.cachedResponse = none)
    (hstations : env.stationSearch = .ok stationDocs)
    (hfail : firstKeywordError env (aggTasks (chosenStationsOf stationDocs)) = some e) :
    (getMidpointHotplaces env request).1 = .error (allOrNothingWrap e) ∧
    (allOrNothingWrap e).isHttpException = true ∧
    ((getMidpointHotplaces env request).2.count AggEvent.stationSearch) = 1 ∧
    AggEvent.cacheWrite ∉ (getMidpointHotplaces env request).2 := by
  have hne : (chosenStationsOf stationDocs).isEmpty = false := by
    rcases hst : chosenStationsOf stationDocs with _ | ⟨s, t⟩
    · exfalso
      rw [hst] at hfail
      simp [aggTasks, firstKeywordError] at hfail
    · rfl
  have hfail2 : firstKeywordError env (aggTasks (chosenStationsOf stationDocs)) = some e :=
    hfail
  have hmain : getMidpointHotplaces env request =
      (.error (allOrNothingWrap e),
       [AggEvent.cacheLookup, AggEvent.stationSearch] ++
         (aggTasks (chosenStationsOf stationDocs)).map fun t =>
           AggEvent.keywordSearch t.station.station_name t.keyword t.page) := by
    simp only [getMidpointHotplaces]
    rw [if_neg hguard, hcache, hstations]
    dsimp only
    rw [if_neg (by simp [hne])]
    rw [hfail2]
  rw [hmain]
  refine ⟨rfl, ?_, ?_, ?_⟩
  · unfold allOrNothingWrap
    split <;> rfl
  · rw [List.count_append]
    have h2 : (((aggTasks (chosenStationsOf stationDocs)).map fun t =>
        AggEvent.keywordSearch t.station.station_name t.keyword t.page).count
        AggEvent.stationSearch) = 0 := by
      rw [List.count_eq_zero]
      intro hx
      obtain ⟨t, _, ht⟩ := List.mem_map.mp hx
      exact AggEvent.noConfusion ht
    rw [h2]
    decide
  · intro hx
    rcases List.mem_append.mp hx with h1 | h2
    · simp at h1
    · obtain ⟨t, _, ht⟩ := List.mem_map.mp h2
      exact AggEvent.noConfusion ht

/-- Witness for C3: the all-or-nothing test environment (every keyword
search raises the forced 503) yields the policy-wrapped error with the
anchor search executed exactly once. -/
theorem fanout_all_or_nothing_witness :
    (getMidpointHotplaces envKeywordFailure sampleRequest).1 =
      .error (allOrNothingWrap forcedKeywordFailure) ∧
    ((getMidpointHotplaces envKeywordFailure sampleRequest).2.count
      AggEvent.stationSearch) = 1 :=
  ⟨(fanout_all_or_nothing envKeywordFailure sampleRequest [sampleStationDoc]
      forcedKeywordFailure (by decide) rfl rfl rfl).1,
   (fanout_all_or_nothing envKeywordFailure sampleRequest [sampleStationDoc]
      forcedKeywordFailure (by decide) rfl rfl rfl).2.2.1⟩

/-- C4: on every cache-miss aggregation that returns successfully, the
response's candidate external ids (`kakao_place_id`) are pairwise
distinct, and every returned candidate is — up to the ranking fields
set by `_rank_hotplaces` — the first-seen hotplace built for its id
across all anchor/keyword/page results in task order (so it keeps the
source anchor and source keyword of the first occurrence). -/
theorem aggregation_ids_unique_first_seen (env : AggEnv)
    (request : MidpointHotplaceRequest) (resp : MidpointHotplaceResponse)
    (hcache : env.cachedResponse = none)
    (hok : (getMidpointHotplaces env request).1 = .ok resp) :
    (resp.hotplaces.map MidpointHotplace.kakao_place_id).Nodup ∧
    ∀ h ∈ resp.hotplaces, ∃ h0,
      (aggBuiltHotplaces env).find?
        (fun g => g.kakao_place_id == h.kakao_place_id) = some h0 ∧
      OnlyRankingFieldsDiffer h0 h := by
  by_cases hguard : calculateExpectedKakaoCalls fixedStationLimit
      (predefinedPlayKeywords.length : ℤ) fixedPages >
      env.config.maxKakaoCallsPerRequest
  · exfalso
    simp only [getMidpointHotplaces] at hok
    rw [if_pos hguard] at hok
    simp at hok
  · rcases hstat : env.stationSearch with err | stationDocs
    · exfalso
      simp only [getMidpointHotplaces] at hok
      rw [if_neg hguard, hcache, hstat] at hok
      simp at hok
    · simp only [getMidpointHotplaces] at hok
      rw [if_neg hguard, hcache, hstat] at hok
      dsimp only at hok
      by_cases hempty : (chosenStationsOf stationDocs).isEmpty
      · rw [if_pos hempty] at hok
        have hresp : resp.hotplaces = [] := by
          have hr := (Except.ok.inj hok).symm
          rw [hr]
        rw [hresp]
        exact ⟨by simp, by intro h hh; simp at hh⟩
      · rw [if_neg hempty] at hok
        rcases hfe : firstKeywordError env (aggTasks (chosenStationsOf stationDocs))
            with _ | e
        · rw [hfe] at hok
          dsimp only at hok
          have hr : resp = _ := (Except.ok.inj hok).symm
          subst hr
          dsimp only
          have hbuiltEq : aggBuiltHotplaces env =
              ((aggTasks (chosenStationsOf stationDocs)).map fun t =>
                (t.station.station_name, t.keyword,
                 (env.keywordSearch t).toOption.getD [])).flatMap
                (fun r => r.2.2.filterMap fun doc => buildHotplace doc r.1 r.2.1) := by
            unfold aggBuiltHotplaces aggKeywordResults aggStations
            rw [hstat]
          have hDspec := dedupFirstByKey_spec
            (fun h : MidpointHotplace => h.kakao_place_id)
            (((aggTasks (chosenStationsOf stationDocs)).map fun t =>
                (t.station.station_name, t.keyword,
                 (env.keywordSearch t).toOption.getD [])).flatMap
              (fun r => r.2.2.filterMap fun doc => buildHotplace doc r.1 r.2.1))
          have hperm := rankHotplaces_perm
            (dedupeHotplaces ((aggTasks (chosenStationsOf stationDocs)).map fun t =>
              (t.station.station_name, t.keyword,
               (env.keywordSearch t).toOption.getD []))) request
          constructor
          · have hpermMap := hperm.map MidpointHotplace.kakao_place_id
            rw [List.map_map] at hpermMap
            have hcomp : (MidpointHotplace.kakao_place_id ∘
                rankHotplaceUpdate request (normalizeWeatherKey request.weather_key)
                  (resolveRankingWeights (normalizeWeatherKey request.weather_key))) =
                MidpointHotplace.kakao_place_id := rfl
            rw [hcomp] at hpermMap
            exact hpermMap.nodup_iff.mpr hDspec.1
          · intro h hh
            have hh2 := hperm.mem_iff.mp hh
            obtain ⟨h0, hh0, rfl⟩ := List.mem_map.mp hh2
            refine ⟨h0, ?_, rankHotplaceUpdate_frame _ _ _ h0⟩
            rw [hbuiltEq]
            exact hDspec.2 h0 hh0
        · exfalso
          rw [hfe] at hok
          simp at hok

/-- Witness for C4: the all-ok environment (whose first keyword returns
the same place twice) yields a successful response with pairwise
distinct candidate ids. -/
theorem aggregation_ids_unique_first_seen_witness :
    ∃ resp, (getMidpointHotplaces envAllOk sampleRequest).1 = .ok resp ∧
      (resp.hotplaces.map MidpointHotplace.kakao_place_id).Nodup :=
  ⟨_, rfl, (aggregation_ids_unique_first_seen envAllOk sampleRequest _ rfl rfl).1⟩
